import Mathlib

/-!
Verification of the multAgentAnalytics benefit pipeline (repo_I2A2).

Shallow embedding of the pipeline stages Cleaner (agents/limpeza.py),
Calculator (agents/calculador.py), Validator (agents/validador.py) and the
Coordinator glue (agents/coordenador.py), over the record model of
models/dados_entrada.py and the configuration of config/settings.py.

Python conventions modelled explicitly:
  * spreadsheet cell values are heterogeneous, so record fields that the code
    reads with dict.get and mixed types are a sum type Value
    (None / int / Decimal / str / bool / date);
  * Decimal arithmetic is modelled by exact rationals (all constants used by
    the code, such as 0.80, 0.20 and 0.01, are exactly representable);
  * comparisons such as v > 0 on a Value raise TypeError when v is a str,
    None or a date, which is modelled by Except;
  * int(float(x)) truncates toward zero.
The console/report output, the timing statistics and the free-text
observation log of the dataset are external to every claim and not modelled.
-/

/-- A Python value as it appears in the mutable employee-record dicts. -/
inductive Value where
  | vnone : Value
  | vint (n : Int) : Value
  | vdec (q : Rat) : Value
  | vstr (s : String) : Value
  | vbool (b : Bool) : Value
  | vdate (y m d : Nat) : Value
deriving DecidableEq, Repr

/-- Python truthiness of a Value. -/
def pyTruthy : Value → Bool
  | .vnone => false
  | .vint n => n ≠ 0
  | .vdec q => q ≠ 0
  | .vstr s => s ≠ ""
  | .vbool b => b
  | .vdate _ _ _ => true

/-- Numeric interpretation of a Value (int, Decimal and bool are numbers in
Python's ordering and arithmetic; str, None and dates are not). -/
def valNum : Value → Option Rat
  | .vint n => some (n : Rat)
  | .vdec q => some q
  | .vbool b => some (if b then 1 else 0)
  | _ => none

/-- Model of a Python comparison between a Value and a number: TypeError
unless the Value is numeric. -/
def cmpNum (v : Value) : Except String Rat :=
  match valNum v with
  | some q => .ok q
  | none => .error "TypeError: comparison between non-numeric and int"

def cmpGt (v : Value) (k : Rat) : Except String Bool :=
  (cmpNum v).map (fun q => k < q)

def cmpLt (v : Value) (k : Rat) : Except String Bool :=
  (cmpNum v).map (fun q => q < k)

def cmpLe (v : Value) (k : Rat) : Except String Bool :=
  (cmpNum v).map (fun q => q ≤ k)

/-- Python ==/!= between a Value and an int never raises; values of
different types are simply unequal. -/
def pyEqInt (v : Value) (k : Int) : Bool :=
  match valNum v with
  | some q => q = (k : Rat)
  | none => false

/-- ASCII lowercase plus the accented letters appearing in the repository's
string constants (Python str.lower). -/
def pyLowerChar (c : Char) : Char :=
  match c with
  | 'Á' => 'á' | 'Â' => 'â' | 'Ã' => 'ã'
  | 'É' => 'é' | 'Ê' => 'ê'
  | 'Í' => 'í'
  | 'Ó' => 'ó' | 'Ô' => 'ô' | 'Õ' => 'õ'
  | 'Ú' => 'ú' | 'Ç' => 'ç'
  | _ => c.toLower

def pyUpperChar (c : Char) : Char :=
  match c with
  | 'á' => 'Á' | 'â' => 'Â' | 'ã' => 'Ã'
  | 'é' => 'É' | 'ê' => 'Ê'
  | 'í' => 'Í'
  | 'ó' => 'Ó' | 'ô' => 'Ô' | 'õ' => 'Õ'
  | 'ú' => 'Ú' | 'ç' => 'Ç'
  | _ => c.toUpper

def pyLower (s : String) : String := String.mk (s.toList.map pyLowerChar)

def pyUpper (s : String) : String := String.mk (s.toList.map pyUpperChar)

/-- needle at the head of hay. -/
def subAt : List Char → List Char → Bool
  | [], _ => true
  | _ :: _, [] => false
  | a :: as, b :: bs => a = b && subAt as bs

def listHasSub (needle : List Char) : List Char → Bool
  | [] => subAt needle []
  | h :: t => subAt needle (h :: t) || listHasSub needle t

/-- Python substring test: needle in hay. -/
def hasSub (hay needle : String) : Bool := listHasSub needle.toList hay.toList

/-- Python str.strip(' |'), used for the observation fields. -/
def stripPipe (s : String) : String :=
  let junk : List Char := [' ', '|']
  String.mk ((((s.toList.dropWhile (· ∈ junk)).reverse.dropWhile (· ∈ junk)).reverse))

/-- Python str.strip() (default whitespace), defined structurally so that
closed instances reduce in the kernel. -/
def pyStrip (s : String) : String :=
  String.mk (((s.toList.dropWhile Char.isWhitespace).reverse.dropWhile Char.isWhitespace).reverse)

/-! Exact rational arithmetic written through mkRat so that closed
computations reduce; each operation is proved equal to the Mathlib one. -/

def rmul (a b : Rat) : Rat := mkRat (a.num * b.num) (a.den * b.den)

def radd (a b : Rat) : Rat := mkRat (a.num * b.den + b.num * a.den) (a.den * b.den)

def rneg (a : Rat) : Rat := mkRat (-a.num) a.den

def rsub (a b : Rat) : Rat := radd a (rneg b)

def rabs (a : Rat) : Rat := if a.num < 0 then rneg a else a

def rdiv (a b : Rat) : Rat :=
  mkRat (if 0 ≤ b.num then a.num * b.den else -(a.num * b.den)) (a.den * b.num.natAbs)

theorem rmul_eq (a b : Rat) : rmul a b = a * b := by
  unfold rmul
  rw [Rat.mkRat_eq_div]
  push_cast
  conv_rhs => rw [← Rat.num_div_den a, ← Rat.num_div_den b]
  rw [div_mul_div_comm]

theorem radd_eq (a b : Rat) : radd a b = a + b := by
  unfold radd
  rw [Rat.mkRat_eq_div]
  push_cast
  conv_rhs => rw [← Rat.num_div_den a, ← Rat.num_div_den b]
  rw [div_add_div _ _ (by positivity : ((a.den : Rat)) ≠ 0) (by positivity : ((b.den : Rat)) ≠ 0)]
  ring_nf

theorem rneg_eq (a : Rat) : rneg a = -a := by
  unfold rneg
  rw [Rat.mkRat_eq_div]
  push_cast
  rw [neg_div, Rat.num_div_den]

theorem rsub_eq (a b : Rat) : rsub a b = a - b := by
  unfold rsub
  rw [radd_eq, rneg_eq, sub_eq_add_neg]

theorem rabs_eq (a : Rat) : rabs a = |a| := by
  unfold rabs
  by_cases h : a.num < 0
  · have ha : a < 0 := by
      rwa [← Rat.num_neg]
    simp [h, rneg_eq, abs_of_neg ha]
  · have ha : 0 ≤ a := by
      rw [← Rat.num_nonneg]
      omega
    simp [h, abs_of_nonneg ha]

def allDigits (l : List Char) : Bool := l.all (fun c => '0' ≤ c && c ≤ '9')

def digitsVal (l : List Char) : Nat := l.foldl (fun a c => a * 10 + (c.toNat - 48)) 0

/-- Model of Python float(s) on a plain decimal literal (optional sign,
digits, optional fractional part); scientific notation is not used by the
repository's data. -/
def parseFloatStr (s : String) : Option Rat :=
  let l := (pyStrip s).toList
  let sgnAndRest : Int × List Char :=
    match l with
    | '+' :: t => (1, t)
    | '-' :: t => (-1, t)
    | t => (1, t)
  let sgn := sgnAndRest.1
  let body := sgnAndRest.2
  let intPart := body.takeWhile (fun c => c ≠ '.')
  let rest := body.dropWhile (fun c => c ≠ '.')
  match rest with
  | [] =>
    if intPart ≠ [] && allDigits intPart then
      some (mkRat (sgn * (digitsVal intPart : Int)) 1)
    else none
  | _ :: frac =>
    if (intPart ≠ [] || frac ≠ []) && allDigits intPart && allDigits frac then
      some (mkRat (sgn * ((digitsVal intPart * 10 ^ frac.length + digitsVal frac : Nat) : Int))
        (10 ^ frac.length))
    else none

/-- Truncation toward zero, the behaviour of Python int() on a float. -/
def ratTruncInt (q : Rat) : Int := Int.tdiv q.num (q.den : Int)

/-- Model of Python float(v): numbers pass through, numeric strings parse,
anything else raises. -/
def pyFloat : Value → Except String Rat
  | .vint n => .ok (n : Rat)
  | .vdec q => .ok q
  | .vbool b => .ok (if b then 1 else 0)
  | .vstr s =>
    match parseFloatStr s with
    | some q => .ok q
    | none => .error "ValueError: could not convert string to float"
  | .vnone => .error "TypeError: float() argument must not be None"
  | .vdate _ _ _ => .error "TypeError: float() argument must not be a date"

/-- Model of Python int(float(v)), the coercion in the Calculator. -/
def pyIntFloat (v : Value) : Except String Int :=
  (pyFloat v).map ratTruncInt

/-- Model of Python int(v) (int() on a string accepts only integer
literals). -/
def pyInt : Value → Except String Int
  | .vint n => .ok n
  | .vdec q => .ok (ratTruncInt q)
  | .vbool b => .ok (if b then 1 else 0)
  | .vstr s =>
    let l := (pyStrip s).toList
    let sgnAndRest : Int × List Char :=
      match l with
      | '+' :: t => (1, t)
      | '-' :: t => (-1, t)
      | t => (1, t)
    if sgnAndRest.2 ≠ [] && allDigits sgnAndRest.2 then
      .ok (sgnAndRest.1 * (digitsVal sgnAndRest.2 : Int))
    else .error "ValueError: invalid literal for int"
  | .vnone => .error "TypeError: int() argument must not be None"
  | .vdate _ _ _ => .error "TypeError: int() argument must not be a date"

/-- Model of Decimal(str(v)) for a Value that is not already a Decimal
(the repeated conversion idiom of the Calculator and Validator). -/
def toDecimalStr : Value → Except String Rat
  | .vdec q => .ok q
  | .vint n => .ok (n : Rat)
  | .vstr s =>
    match parseFloatStr s with
    | some q => .ok q
    | none => .error "InvalidOperation: invalid decimal literal"
  | .vbool _ => .error "InvalidOperation: invalid decimal literal"
  | .vnone => .error "InvalidOperation: invalid decimal literal"
  | .vdate _ _ _ => .error "InvalidOperation: invalid decimal literal"

/-- Python sum accumulation a + v where a is a number: TypeError on
non-numeric v. -/
def pyAddNum (a : Rat) (v : Value) : Except String Rat :=
  match valNum v with
  | some q => .ok (radd a q)
  | none => .error "TypeError: unsupported operand types for +"

/-! ## Data model (models/dados_entrada.py)

An employee record is the mutable dict built by
DadosEntrada.adicionar_colaborador_ativo; the fields below are exactly the
keys the Cleaner, Calculator and Validator read or write.  Fields that hold
heterogeneous spreadsheet data are Value, fields the code only ever treats
as strings or booleans are typed directly. -/

structure Colaborador where
  matricula : String
  nome : String
  cargo : String
  situacao : String
  sindicato : String
  ativo : Bool
  elegivel : Bool
  em_ferias : Bool
  admitido_mes_anterior : Bool
  dias_ferias : Value
  dias_trabalhados : Value
  dias_uteis : Value
  valor_vr : Value
  valor_total_beneficio : Value
  custo_empresa : Value
  desconto_profissional : Value
  data_admissao : Value
  data_desligamento : Value
  observacoes : String
  motivo_exclusao : String
deriving DecidableEq, Repr

/-- A row of the vacation side-table (consolidador._ler_ferias). -/
structure FeriasRow where
  matricula : String
  dias_ferias : Value
deriving DecidableEq, Repr

/-- A row of the termination side-table (consolidador._ler_desligados). -/
structure DesligadoRow where
  matricula : String
  data_demissao : Value
deriving DecidableEq, Repr

/-- The pipeline's shared aggregate (DadosEntrada).  The field
colaboradores_estagiarios embeds the source field colaboradores_estagio. -/
structure DadosEntrada where
  colaboradores_ativos : List Colaborador
  colaboradores_ferias : List FeriasRow
  colaboradores_desligados : List DesligadoRow
  config_sindicatos : List (String × Rat)
  dias_uteis_por_sindicato : List (String × Int)
  colaboradores_exterior : List String
  colaboradores_estagiarios : List String
  colaboradores_aprendiz : List String
  colaboradores_afastados : List String
  total_beneficios : Rat
  total_custo_empresa : Rat
  total_desconto_profissionais : Rat
  colaboradores_validos : Nat
deriving DecidableEq, Repr

/-- dict.get on the per-union configuration maps. -/
def lookupD {α : Type} (m : List (String × α)) (k : String) : Option α :=
  (m.find? (fun p => p.fst = k)).map Prod.snd

/-- adicionar_exclusao_* of DadosEntrada: append the matricula if absent. -/
def adicionarExclusao (l : List String) (m : String) : List String :=
  if l.contains m then l else l ++ [m]

/-! ## Configuration (config/settings.py) -/

def DIA_LIMITE_DESLIGAMENTO : Nat := 15

def CUSTO_EMPRESA_PERCENTUAL : Rat := mkRat 80 100

def CUSTO_PROFISSIONAL_PERCENTUAL : Rat := mkRat 20 100

def VALIDACOES_OBRIGATORIAS : List String := ["matricula", "sindicato"]

/-- regras_ferias sub-dict of a union configuration entry; regra_especial
is "" when the key is absent (dict.get default). -/
structure RegrasFerias where
  tipo : String
  dias_minimos : Int
  dias_maximos : Int
  regra_especial : String
deriving DecidableEq, Repr

/-- One entry of CONFIGURACAO_SINDICATOS; regras_especiais is [] when the
key is absent. -/
structure ConfigSindicato where
  valor_diario_vr : Rat
  dias_uteis_mes : Int
  percentual_empresa : Rat
  percentual_profissional : Rat
  regras_ferias : Option RegrasFerias
  regras_especiais : List String
deriving DecidableEq, Repr

def CONFIGURACAO_SINDICATOS : List (String × ConfigSindicato) := [
  ("Paraná", ⟨mkRat 2500 100, 23, mkRat 80 100, mkRat 20 100,
    some ⟨"parcial", 10, 30, ""⟩, []⟩),
  ("Rio de Janeiro", ⟨mkRat 2600 100, 22, mkRat 80 100, mkRat 20 100,
    some ⟨"parcial", 10, 30, ""⟩, []⟩),
  ("Rio Grande do Sul", ⟨mkRat 2400 100, 22, mkRat 80 100, mkRat 20 100,
    some ⟨"parcial", 10, 30, ""⟩, []⟩),
  ("São Paulo", ⟨mkRat 2800 100, 22, mkRat 80 100, mkRat 20 100,
    some ⟨"parcial", 10, 30, ""⟩, []⟩),
  ("SINDICATO_METALURGICOS", ⟨mkRat 2550 100, 23, mkRat 80 100, mkRat 20 100,
    some ⟨"parcial", 15, 30, "Férias podem ser divididas em até 3 períodos"⟩,
    ["Férias 30 dias", "13º salário", "Admissão proporcional", "Desligamento proporcional"]⟩),
  ("SINDICATO_QUIMICOS", ⟨mkRat 2800 100, 23, mkRat 80 100, mkRat 20 100,
    some ⟨"integral", 30, 30, "Férias devem ser gozadas integralmente"⟩,
    ["Férias 30 dias", "PLR", "Admissão proporcional", "Desligamento proporcional"]⟩),
  ("SINDICATO_BANCARIOS", ⟨mkRat 3200 100, 22, mkRat 85 100, mkRat 15 100,
    some ⟨"parcial", 10, 30, "Férias podem ser divididas em até 4 períodos"⟩,
    ["Férias 30 dias", "PLR", "Auxílio creche", "Admissão proporcional", "Desligamento proporcional"]⟩),
  ("SINDICATO_COMERCIARIOS", ⟨mkRat 2200 100, 23, mkRat 80 100, mkRat 20 100,
    some ⟨"parcial", 20, 30, "Férias podem ser divididas em até 2 períodos"⟩,
    ["Férias 30 dias", "13º salário", "Admissão proporcional", "Desligamento proporcional"]⟩),
  ("SINDICATO_TRANSPORTADORES", ⟨mkRat 2650 100, 23, mkRat 80 100, mkRat 20 100,
    some ⟨"integral", 30, 30, "Férias devem ser gozadas integralmente"⟩,
    ["Férias 30 dias", "Adicional noturno", "Admissão proporcional", "Desligamento proporcional"]⟩)
]

/-! ## Cleaner stage (agents/limpeza.py, AgenteLimpeza._executar_agente)

The five passes run in order: role exclusion, situation exclusion,
matricula exclusion, vacation merge, termination merge. -/

/-- Role text matching the director/coordinator branch of
_excluir_por_cargo. -/
def diretorMatch (cargo : String) : Bool :=
  hasSub cargo "diretor" || hasSub cargo "coordenador"

/-- Role text matching the removal list cargos_excluidos. -/
def cargoExcluidoMatch (cargo : String) : Bool :=
  hasSub cargo "estagiario" || hasSub cargo "aprendiz"

/-- Field update applied to directors/coordinators by _excluir_por_cargo. -/
def dirUpdate (c : Colaborador) : Colaborador :=
  { c with elegivel := false, dias_trabalhados := .vint 0,
           motivo_exclusao := "CARGO_DIRETORIA/COORDENACAO" }

/-- The loop of _excluir_por_cargo: walks the active list, keeps directors
(with the ineligibility update), removes interns/apprentices while adding
their matricula to the corresponding exclusion list, keeps everyone else.
Returns the surviving list and the two updated exclusion lists. -/
def cargoGo : List Colaborador → List String → List String →
    List Colaborador × List String × List String
  | [], est, apr => ([], est, apr)
  | c :: rest, est, apr =>
    let cargo := pyLower c.cargo
    if diretorMatch cargo then
      let r := cargoGo rest est apr
      (dirUpdate c :: r.1, r.2)
    else if cargoExcluidoMatch cargo then
      if hasSub cargo "estagiario" then
        cargoGo rest (adicionarExclusao est c.matricula) apr
      else
        cargoGo rest est (adicionarExclusao apr c.matricula)
    else
      let r := cargoGo rest est apr
      (c :: r.1, r.2)

def excluir_por_cargo (d : DadosEntrada) : DadosEntrada :=
  let r := cargoGo d.colaboradores_ativos d.colaboradores_estagiarios d.colaboradores_aprendiz
  { d with colaboradores_ativos := r.1,
           colaboradores_estagiarios := r.2.1,
           colaboradores_aprendiz := r.2.2 }

/-- Situation text matching situacoes_excluidas of _excluir_por_situacao. -/
def situacaoMatch (situacao : String) : Bool :=
  hasSub situacao "licença maternidade" || hasSub situacao "auxílio doença"

/-- The loop of _excluir_por_situacao. -/
def situacaoGo : List Colaborador → List String → List Colaborador × List String
  | [], afa => ([], afa)
  | c :: rest, afa =>
    if situacaoMatch (pyLower c.situacao) then
      situacaoGo rest (adicionarExclusao afa c.matricula)
    else
      let r := situacaoGo rest afa
      (c :: r.1, r.2)

def excluir_por_situacao (d : DadosEntrada) : DadosEntrada :=
  let r := situacaoGo d.colaboradores_ativos d.colaboradores_afastados
  { d with colaboradores_ativos := r.1, colaboradores_afastados := r.2 }

/-- The union of the four exclusion lists built at the start of
_excluir_por_matricula (matricula values are already strings in the model,
so str() is the identity). -/
def matriculasExcluidas (d : DadosEntrada) : List String :=
  d.colaboradores_exterior ++ d.colaboradores_estagiarios ++
    d.colaboradores_aprendiz ++ d.colaboradores_afastados

def excluir_por_matricula (d : DadosEntrada) : DadosEntrada :=
  let exc := matriculasExcluidas d
  { d with colaboradores_ativos :=
      d.colaboradores_ativos.filter (fun c => !exc.contains c.matricula) }

/-- First vacation row whose stripped matricula matches
(_processar_ferias). -/
def buscarFerias (tab : List FeriasRow) (m : String) : Option FeriasRow :=
  tab.find? (fun f => pyStrip f.matricula = pyStrip m)

def processarFeriasRecord (tab : List FeriasRow) (c : Colaborador) : Colaborador :=
  match buscarFerias tab c.matricula with
  | some f => { c with em_ferias := true, dias_ferias := f.dias_ferias }
  | none => c

def processar_ferias (d : DadosEntrada) : DadosEntrada :=
  { d with colaboradores_ativos :=
      d.colaboradores_ativos.map (processarFeriasRecord d.colaboradores_ferias) }

/-- First termination row whose stripped matricula matches
(_processar_desligamentos). -/
def buscarDesligado (tab : List DesligadoRow) (m : String) : Option DesligadoRow :=
  tab.find? (fun f => pyStrip f.matricula = pyStrip m)

/-- data_demissao.day if hasattr(data_demissao, 'day') else 15. -/
def diaDemissao : Value → Nat
  | .vdate _ _ d => d
  | _ => 15

/-- In the model the extraction is total; the source wraps it in
try/except, which regraDia15 embeds. -/
def extrairDia (v : Value) : Except String Nat := .ok (diaDemissao v)

/-- The day-15 rule body shared by limpeza._processar_desligamentos and
calculador._aplicar_regras_desligamento: try-block result on the left,
the except branch (not eligible, zero days) on the right. -/
def regraDia15 (diaLimite : Nat) (c : Colaborador) (r : Except String Nat) : Colaborador :=
  match r with
  | .error _ => { c with elegivel := false, dias_trabalhados := .vint 0 }
  | .ok dia =>
    if dia ≤ diaLimite then
      { c with elegivel := false, dias_trabalhados := .vint 0 }
    else
      { c with elegivel := true, dias_trabalhados := .vint ((dia : Int) - 1) }

def processarDesligamentoRecord (diaLimite : Nat) (tab : List DesligadoRow)
    (c : Colaborador) : Colaborador :=
  match buscarDesligado tab c.matricula with
  | none => c
  | some dl =>
    let c1 := { c with ativo := false, data_desligamento := dl.data_demissao }
    if pyTruthy dl.data_demissao then
      regraDia15 diaLimite c1 (extrairDia dl.data_demissao)
    else c1

def processar_desligamentos (d : DadosEntrada) : DadosEntrada :=
  let f := processarDesligamentoRecord DIA_LIMITE_DESLIGAMENTO d.colaboradores_desligados
  { d with colaboradores_ativos := d.colaboradores_ativos.map f }

/-- AgenteLimpeza._executar_agente: the five passes in source order. -/
def limpezaRun (d : DadosEntrada) : DadosEntrada :=
  processar_desligamentos (processar_ferias (excluir_por_matricula
    (excluir_por_situacao (excluir_por_cargo d))))

/-! ## Calculator stage (agents/calculador.py, AgenteCalculador._executar_agente) -/

/-- _aplicar_regras_desligamento, per record: only inactive records with a
truthy termination date are touched; the day-15 rule then sets the same
fields as in the Cleaner (the two assignments appear in the opposite order
in the source, which produces the same record). -/
def aplicarRegraDesligamentoRecord (diaLimite : Nat) (c : Colaborador) : Colaborador :=
  if c.ativo then c
  else if pyTruthy c.data_desligamento then
    regraDia15 diaLimite c (extrairDia c.data_desligamento)
  else c

def aplicar_regras_desligamento (d : DadosEntrada) : DadosEntrada :=
  let f := aplicarRegraDesligamentoRecord DIA_LIMITE_DESLIGAMENTO
  { d with colaboradores_ativos := d.colaboradores_ativos.map f }

/-- _aplicar_regras_ferias, per record. -/
def aplicarRegraFeriasRecord (c : Colaborador) : Colaborador :=
  if c.em_ferias then { c with dias_trabalhados := .vint 0, elegivel := false }
  else c

def aplicar_regras_ferias (d : DadosEntrada) : DadosEntrada :=
  { d with colaboradores_ativos := d.colaboradores_ativos.map aplicarRegraFeriasRecord }

/-- The absent-or-blank test of the days-worked resolution:
dt_raw is None or (isinstance(dt_raw, str) and dt_raw.strip() == ''). -/
def diasBranco : Value → Bool
  | .vnone => true
  | .vstr s => pyStrip s = ""
  | _ => false

/-- Days-worked resolution of _calcular_beneficios (lines 90-100): absent or
blank falls back to the union working-day count, otherwise int(float(...))
with fallback to the working-day count on failure, then clamped at 0. -/
def resolveDiasTrabalhados (dias_uteis : Int) (v : Value) : Int :=
  let raw : Value := if diasBranco v then .vint dias_uteis else v
  let dt : Int :=
    match pyIntFloat raw with
    | .ok n => n
    | .error _ => dias_uteis
  if dt < 0 then 0 else dt

/-- Per-record body of _calcular_beneficios.  The four guard clauses
(continue) leave the record untouched; otherwise the monetary fields are
computed with exact decimal arithmetic and written in one update. -/
def calcBeneficiosRecord (cfgVal : List (String × Rat)) (cfgDias : List (String × Int))
    (pe pp : Rat) (c : Colaborador) : Colaborador :=
  if !c.elegivel then c
  else if c.sindicato = "" then c
  else
    let valorDiaFloat : Rat := (lookupD cfgVal c.sindicato).getD 0
    if valorDiaFloat = 0 then c
    else
      let valorDia : Rat := valorDiaFloat
      let dias_uteis : Int := (lookupD cfgDias c.sindicato).getD 0
      if dias_uteis = 0 || dias_uteis ≤ 0 then c
      else
        let dt : Int := resolveDiasTrabalhados dias_uteis c.dias_trabalhados
        let valorTotal : Rat := rmul valorDia ((dt : Rat))
        let custoEmpresa : Rat := rmul valorTotal pe
        let descontoProf : Rat := rmul valorTotal pp
        { c with valor_vr := .vdec valorDia,
                 dias_uteis := .vint dias_uteis,
                 dias_trabalhados := .vint dt,
                 valor_total_beneficio := .vdec valorTotal,
                 custo_empresa := .vdec custoEmpresa,
                 desconto_profissional := .vdec descontoProf }

def calcular_beneficios (d : DadosEntrada) : DadosEntrada :=
  let f := calcBeneficiosRecord d.config_sindicatos d.dias_uteis_por_sindicato
    CUSTO_EMPRESA_PERCENTUAL CUSTO_PROFISSIONAL_PERCENTUAL
  { d with colaboradores_ativos := d.colaboradores_ativos.map f }

/-- The accumulating loop of _calcular_totais over eligible records; the
Decimal(str(...)) coercions may raise, which aborts the stage. -/
def totaisGo : List Colaborador → Rat → Rat → Rat → Nat →
    Except String (Rat × Rat × Rat × Nat)
  | [], tb, tc, td, n => .ok (tb, tc, td, n)
  | c :: rest, tb, tc, td, n =>
    if c.elegivel then
      match toDecimalStr c.valor_total_beneficio, toDecimalStr c.custo_empresa,
            toDecimalStr c.desconto_profissional with
      | .ok vt, .ok ce, .ok dp => totaisGo rest (radd tb vt) (radd tc ce) (radd td dp) (n + 1)
      | .error e, _, _ => .error e
      | _, .error e, _ => .error e
      | _, _, .error e => .error e
    else totaisGo rest tb tc td n

def calcular_totais (d : DadosEntrada) : Except String DadosEntrada :=
  match totaisGo d.colaboradores_ativos 0 0 0 0 with
  | .ok (tb, tc, td, n) =>
    .ok { d with total_beneficios := tb, total_custo_empresa := tc,
                 total_desconto_profissionais := td, colaboradores_validos := n }
  | .error e => .error e

/-- AgenteCalculador._executar_agente: the four passes in source order. -/
def calculadorRun (d : DadosEntrada) : Except String DadosEntrada :=
  calcular_totais (calcular_beneficios (aplicar_regras_ferias (aplicar_regras_desligamento d)))

/-- Python sum over one monetary field of every active record (the
Coordinator's recomputation in _executar_fase_calculos, lines 164-166). -/
def somaCampo (f : Colaborador → Value) : List Colaborador → Rat → Except String Rat
  | [], acc => .ok acc
  | c :: rest, acc =>
    match pyAddNum acc (f c) with
    | .ok acc2 => somaCampo f rest acc2
    | .error e => .error e

/-- The Coordinator's overwrite of the three dataset totals after the
Calculator stage (coordenador._executar_fase_calculos). -/
def coordenadorTotais (d : DadosEntrada) : Except String DadosEntrada :=
  match somaCampo (fun c => c.valor_total_beneficio) d.colaboradores_ativos 0,
        somaCampo (fun c => c.custo_empresa) d.colaboradores_ativos 0,
        somaCampo (fun c => c.desconto_profissional) d.colaboradores_ativos 0 with
  | .ok tb, .ok tc, .ok td =>
    .ok { d with total_beneficios := tb, total_custo_empresa := tc,
                 total_desconto_profissionais := td }
  | .error e, _, _ => .error e
  | _, .error e, _ => .error e
  | _, _, .error e => .error e

/-- FASE 3 of the Coordinator: the Calculator stage followed by the
Coordinator's recomputation of the totals. -/
def faseCalculos (d : DadosEntrada) : Except String DadosEntrada :=
  match calculadorRun d with
  | .ok d2 => coordenadorTotais d2
  | .error e => .error e

/-! ## Validator stage (agents/validador.py, AgenteValidador)

Validator state: the dataset plus the four message accumulators (self.erros,
self.warnings, and the local erros_list / warnings_list of
_executar_agente); only their lengths are tracked, since the orchestrator
consumes only the lengths.  datetime.now().month is a parameter mesAtual of
the embedding. -/

structure VSt where
  dados : DadosEntrada
  erros : Nat
  warnings : Nat
  erros_list : Nat
  warnings_list : Nat
deriving DecidableEq, Repr

/-- str(value), for the f-string fragments written into observation fields
(a Decimal prints as a rational in the model; the observation text is not
consumed by any rule's logic). -/
def pyStrVal : Value → String
  | .vint n => toString n
  | .vdec q => toString q
  | .vstr s => s
  | .vbool b => if b then "True" else "False"
  | .vnone => "None"
  | .vdate y m d => toString y ++ "-" ++ toString m ++ "-" ++ toString d

/-- The idiom colaborador['observacoes'] = f"OBS | ADD".strip(' |'). -/
def obsAppend (obs add : String) : String := stripPipe (obs ++ " | " ++ add)

/-- Append add when needle is not a substring of the uppercased
observation text. -/
def obsAddIfMissingUpper (c : Colaborador) (needle add : String) : Colaborador :=
  if !hasSub (pyUpper c.observacoes) needle then
    { c with observacoes := obsAppend c.observacoes add }
  else c

/-- Append add when needle is not a substring of the observation text
(case-sensitive variant, used for regra_especial). -/
def obsAddIfMissing (c : Colaborador) (needle add : String) : Colaborador :=
  if !hasSub c.observacoes needle then
    { c with observacoes := obsAppend c.observacoes add }
  else c

/-- _validar_exterior: one error message per active, still-eligible record
whose matricula is in the expatriate list. -/
def validar_exterior (s : VSt) : VSt × Option String :=
  let n := (s.dados.colaboradores_ativos.filter
    (fun c => s.dados.colaboradores_exterior.contains c.matricula && c.elegivel)).length
  ({ s with erros_list := s.erros_list + n }, none)

/-- _validar_estagio (the intern list; field renamed estagiarios in the
model). -/
def validar_estagiarios (s : VSt) : VSt × Option String :=
  let n := (s.dados.colaboradores_ativos.filter
    (fun c => s.dados.colaboradores_estagiarios.contains c.matricula && c.elegivel)).length
  ({ s with erros_list := s.erros_list + n }, none)

/-- _validar_aprendiz. -/
def validar_aprendiz (s : VSt) : VSt × Option String :=
  let n := (s.dados.colaboradores_ativos.filter
    (fun c => s.dados.colaboradores_aprendiz.contains c.matricula && c.elegivel)).length
  ({ s with erros_list := s.erros_list + n }, none)

/-- _validar_afastados. -/
def validar_afastados (s : VSt) : VSt × Option String :=
  let n := (s.dados.colaboradores_ativos.filter
    (fun c => s.dados.colaboradores_afastados.contains c.matricula && c.elegivel)).length
  ({ s with erros_list := s.erros_list + n }, none)

/-- _validar_acordos_coletivos: one warning per record whose union has no
entry in the dataset value map. -/
def validar_acordos_coletivos (s : VSt) : VSt × Option String :=
  let n := (s.dados.colaboradores_ativos.filter
    (fun c => (lookupD s.dados.config_sindicatos c.sindicato).isNone)).length
  ({ s with warnings_list := s.warnings_list + n }, none)

/-- Loop body of _validar_matriculas: empty matricula is an error; an
inactive record without observations gets 'INATIVO'. -/
def matriculasGo : List Colaborador → List Colaborador × Nat
  | [] => ([], 0)
  | c :: rest =>
    let e := if pyStrip c.matricula = "" then 1 else 0
    let c2 := if !c.ativo && c.observacoes = "" then { c with observacoes := "INATIVO" } else c
    let r := matriculasGo rest
    (c2 :: r.1, e + r.2)

/-- _validar_matriculas, including the duplicate check over the stripped
non-empty matriculas. -/
def validar_matriculas (s : VSt) : VSt × Option String :=
  let r := matriculasGo s.dados.colaboradores_ativos
  let lst := (s.dados.colaboradores_ativos.filter (fun c => c.matricula ≠ "")).map
    (fun c => pyStrip c.matricula)
  let dup := if lst.length ≠ lst.dedup.length then 1 else 0
  ({ s with dados := { s.dados with colaboradores_ativos := r.1 },
            erros := s.erros + r.2 + dup }, none)

/-- _validar_consistencia: unions without value or working-day
configuration (one error per nonempty difference set), plus per-entry value
and day-range checks. -/
def validar_consistencia (s : VSt) : VSt × Option String :=
  let ds := s.dados
  let sinds := (ds.colaboradores_ativos.filter (fun c => c.sindicato ≠ "")).map
    (fun c => c.sindicato)
  let e1 := if sinds.any (fun x => (lookupD ds.config_sindicatos x).isNone) then 1 else 0
  let e2 := if sinds.any (fun x => (lookupD ds.dias_uteis_por_sindicato x).isNone) then 1 else 0
  let e3 := (ds.config_sindicatos.filter (fun p => p.snd ≤ 0)).length
  let e4 := (ds.dias_uteis_por_sindicato.filter (fun p => p.snd ≤ 0 || p.snd > 31)).length
  ({ s with erros := s.erros + e1 + e2 + e3 + e4 }, none)

/-- Per-record body of _validar_calculos.  The Decimal conversions of the
three monetary fields sit in a try whose except clause skips the record;
the comparisons of valor_vr and dias_trabalhados sit outside it and can
raise. -/
def calculosRecord (c : Colaborador) : Except String Nat :=
  if !c.elegivel then .ok 0
  else
    match toDecimalStr c.valor_total_beneficio, toDecimalStr c.custo_empresa,
          toDecimalStr c.desconto_profissional with
    | .ok vt, .ok ce, .ok dp =>
      (match cmpGt c.valor_vr 0 with
       | .error e => .error e
       | .ok g1 =>
         let part1 : Except String Nat :=
           if g1 then
             match cmpGt c.dias_trabalhados 0 with
             | .error e => .error e
             | .ok g2 =>
               if g2 then
                 match toDecimalStr c.valor_vr, pyInt c.dias_trabalhados with
                 | .ok vr, .ok di =>
                   .ok (if mkRat 1 100 < rabs (rsub (rmul vr ((di : Rat))) vt) then 1 else 0)
                 | .error e, _ => .error e
                 | _, .error e => .error e
               else .ok 0
           else .ok 0
         match part1 with
         | .error e => .error e
         | .ok n1 =>
           .ok (n1 + (if 0 < vt ∧ mkRat 1 100 < rabs (rsub (radd ce dp) vt) then 1 else 0)))
    | _, _, _ => .ok 0

def calculosGo : List Colaborador → Except String Nat
  | [] => .ok 0
  | c :: rest =>
    match calculosRecord c with
    | .error e => .error e
    | .ok n =>
      match calculosGo rest with
      | .error e => .error e
      | .ok m => .ok (n + m)

/-- _validar_calculos. -/
def validar_calculos (s : VSt) : VSt × Option String :=
  match calculosGo s.dados.colaboradores_ativos with
  | .ok n => ({ s with erros := s.erros + n }, none)
  | .error e => (s, some e)

/-- Truthiness of a mandatory field by name (settings
VALIDACOES_OBRIGATORIAS). -/
def campoTruthy (c : Colaborador) (campo : String) : Bool :=
  if campo = "matricula" then c.matricula ≠ ""
  else if campo = "nome" then c.nome ≠ ""
  else if campo = "sindicato" then c.sindicato ≠ ""
  else false

/-- _validar_totais: the count identity check (always satisfied) plus the
mandatory-field scan; a missing 'nome' would be a warning, the other
fields are errors. -/
def validar_totais (s : VSt) : VSt × Option String :=
  let total := s.dados.colaboradores_ativos.length
  let validos := (s.dados.colaboradores_ativos.filter (fun c => c.elegivel)).length
  let e0 := if total ≠ validos + (total - validos) then 1 else 0
  let e1 := (s.dados.colaboradores_ativos.map (fun c =>
    (VALIDACOES_OBRIGATORIAS.filter (fun campo => !campoTruthy c campo && campo ≠ "nome")).length)).sum
  let w1 := (s.dados.colaboradores_ativos.map (fun c =>
    (VALIDACOES_OBRIGATORIAS.filter (fun campo => !campoTruthy c campo && campo = "nome")).length)).sum
  ({ s with erros := s.erros + e0 + e1, warnings := s.warnings + w1 }, none)

/-- Zeroing branch of _validar_ferias (lines 356-361): the literal 0 the
source assigns is a Python int. -/
def feriasZeroUpdate (c : Colaborador) : Colaborador :=
  { c with elegivel := false, valor_total_beneficio := .vint 0,
           custo_empresa := .vint 0, desconto_profissional := .vint 0 }

/-- The regra_especial note of _validar_ferias (lines 336-337). -/
def feriasEspecialNote (regras : RegrasFerias) (c : Colaborador) : Colaborador :=
  if regras.regra_especial ≠ "" then
    obsAddIfMissing c regras.regra_especial regras.regra_especial
  else c

/-- The proportional recomputation of _validar_ferias (lines 340-355): the
record is first marked eligible, then the Decimal conversions run (a raise
here keeps the eligibility mutation, as in the source) and the three
monetary fields are rewritten from the loop-local dias value. -/
def feriasRecompute (cfg : ConfigSindicato) (dias : Value) (c : Colaborador)
    (e w : Nat) : Colaborador × Nat × Nat × Option String :=
  match toDecimalStr c.valor_vr with
  | .error err => ({ c with elegivel := true }, e, w, some err)
  | .ok vr =>
    match pyInt dias with
    | .error err => ({ c with elegivel := true }, e, w, some err)
    | .ok di =>
      let vt := rmul vr ((di : Rat))
      ({ c with elegivel := true, valor_total_beneficio := .vdec vt,
                custo_empresa := .vdec (rmul vt cfg.percentual_empresa),
                desconto_profissional := .vdec (rmul vt cfg.percentual_profissional) },
       e, w, none)

/-- The eligibility dispatch of _validar_ferias (lines 339-361), keyed on
the loop-local dias value read at line 287 (not on the possibly already
zeroed record field). -/
def feriasSwitch (cfg : ConfigSindicato) (dias : Value) (c : Colaborador)
    (e w : Nat) : Colaborador × Nat × Nat × Option String :=
  match cmpGt dias 0 with
  | .error err => (c, e, w, some err)
  | .ok true => feriasRecompute cfg dias c e w
  | .ok false => (feriasZeroUpdate c, e, w, none)

/-- Common tail of the em-ferias branch of _validar_ferias (lines 335-361). -/
def feriasCommon (cfg : ConfigSindicato) (regras : RegrasFerias) (dias : Value)
    (c : Colaborador) (e w : Nat) : Colaborador × Nat × Nat × Option String :=
  feriasSwitch cfg dias (feriasEspecialNote regras c) e w

/-- The integral branch of _validar_ferias (lines 302-315): error when the
loop-local days value is positive, then the ineligibility update and the
note, then the common tail. -/
def feriasIntegralBranch (cfg : ConfigSindicato) (regras : RegrasFerias)
    (dias : Value) (c : Colaborador) : Colaborador × Nat × Nat × Option String :=
  match cmpGt dias 0 with
  | .error err => (c, 0, 0, some err)
  | .ok g =>
    feriasCommon cfg regras dias
      (obsAddIfMissingUpper { c with elegivel := false, dias_trabalhados := .vint 0 }
        "FÉRIAS INTEGRAIS" "FÉRIAS INTEGRAIS")
      (if g then 1 else 0) 0

/-- The partial branch of _validar_ferias (lines 317-333): warning below the
minimum, error above the maximum, the note, then the common tail. -/
def feriasParcialBranch (cfg : ConfigSindicato) (regras : RegrasFerias)
    (dias : Value) (c : Colaborador) : Colaborador × Nat × Nat × Option String :=
  match cmpLt dias (regras.dias_minimos : Rat) with
  | .error err => (c, 0, 0, some err)
  | .ok gl =>
    match cmpGt dias (regras.dias_maximos : Rat) with
    | .error err => (c, 0, (if gl then 1 else 0), some err)
    | .ok gg =>
      feriasCommon cfg regras dias
        (obsAddIfMissingUpper c "FÉRIAS PARCIAIS"
          ("FÉRIAS PARCIAIS (" ++ pyStrVal dias ++ " dias)"))
        (if gg then 1 else 0) (if gl then 1 else 0)

/-- Per-record body of _validar_ferias (lines 283-369); returns the updated
record, the adicionar_erro count, the adicionar_warning count and a raised
exception if any.  The dias value passed to the branches is the loop-local
read of line 287. -/
def validarFeriasRecord (c : Colaborador) : Colaborador × Nat × Nat × Option String :=
  if !c.em_ferias then (c, 0, 0, none)
  else
    match lookupD CONFIGURACAO_SINDICATOS c.sindicato with
    | none => (c, 0, 1, none)
    | some cfg =>
      match cfg.regras_ferias with
      | none => (c, 0, 1, none)
      | some regras =>
        if regras.tipo = "integral" then
          feriasIntegralBranch cfg regras c.dias_trabalhados c
        else if regras.tipo = "parcial" then
          feriasParcialBranch cfg regras c.dias_trabalhados c
        else feriasCommon cfg regras c.dias_trabalhados c 0 0

def validarFeriasGo : List Colaborador → List Colaborador × Nat × Nat × Option String
  | [] => ([], 0, 0, none)
  | c :: rest =>
    let r := validarFeriasRecord c
    match r.2.2.2 with
    | some err => (r.1 :: rest, r.2.1, r.2.2.1, some err)
    | none =>
      let r2 := validarFeriasGo rest
      (r.1 :: r2.1, r.2.1 + r2.2.1, r.2.2.1 + r2.2.2.1, r2.2.2.2)

/-- _validar_ferias. -/
def validar_ferias (s : VSt) : VSt × Option String :=
  let r := validarFeriasGo s.dados.colaboradores_ativos
  ({ s with dados := { s.dados with colaboradores_ativos := r.1 },
            erros := s.erros + r.2.1, warnings := s.warnings + r.2.2.1 }, r.2.2.2)

/-- Per-record body of _validar_desligamento_dia_15; the per-record
try/except swallows a comparison TypeError after the first error was
already recorded. -/
def deslig15Record (c : Colaborador) : Nat :=
  if c.ativo then 0
  else if !pyTruthy c.data_desligamento then 0
  else
    let dia := match c.data_desligamento with | .vdate _ _ d => d | _ => 15
    if dia ≤ DIA_LIMITE_DESLIGAMENTO then
      let e1 := if c.elegivel then 1 else 0
      match cmpGt c.dias_trabalhados 0 with
      | .error _ => e1
      | .ok g => e1 + (if g then 1 else 0)
    else 0

def validar_desligamento_dia_15 (s : VSt) : VSt × Option String :=
  ({ s with erros := s.erros + (s.dados.colaboradores_ativos.map deslig15Record).sum }, none)

/-- Per-record body of _validar_desligamento_dia_16_plus (the eligibility
read uses default False in the source). -/
def deslig16Record (c : Colaborador) : Nat :=
  if c.ativo then 0
  else if !pyTruthy c.data_desligamento then 0
  else
    let dia := match c.data_desligamento with | .vdate _ _ d => d | _ => 15
    if dia > DIA_LIMITE_DESLIGAMENTO then
      let e1 := if !c.elegivel then 1 else 0
      match cmpLe c.dias_trabalhados 0 with
      | .error _ => e1
      | .ok g => e1 + (if g then 1 else 0)
    else 0

def validar_desligamento_dia_16_plus (s : VSt) : VSt × Option String :=
  ({ s with erros := s.erros + (s.dados.colaboradores_ativos.map deslig16Record).sum }, none)

/-- Per-record body of _validar_admitidos_mes; exceptions in the per-record
try are passed over. -/
def admitidosMesRecord (mesAtual : Nat) (c : Colaborador) : Nat :=
  if !pyTruthy c.data_admissao then 0
  else
    let mesAdm := match c.data_admissao with | .vdate _ m _ => m | _ => mesAtual
    if mesAdm = mesAtual then
      match cmpLe c.dias_trabalhados 0 with
      | .error _ => 0
      | .ok g => if g then 1 else 0
    else 0

def validar_admitidos_mes (mesAtual : Nat) (s : VSt) : VSt × Option String :=
  ({ s with erros := s.erros + (s.dados.colaboradores_ativos.map (admitidosMesRecord mesAtual)).sum }, none)

/-- Per-record body of _validar_admitidos_mes_anterior: April admissions
get the note, the flag and a year sanity warning; the handler of the
per-record try only logs. -/
def admitidosAbrilRecord (mesAtual : Nat) (c : Colaborador) : Colaborador × Nat × Nat :=
  if !pyTruthy c.data_admissao then (c, 0, 0)
  else
    let mesAdm := match c.data_admissao with | .vdate _ m _ => m | _ => mesAtual
    if mesAdm = 4 then
      match cmpLe c.dias_trabalhados 0 with
      | .error _ => (c, 0, 0)
      | .ok g =>
        let e := if g then 1 else 0
        let c := if c.observacoes = "" then { c with observacoes := "ADMITIDO EM ABRIL" } else c
        let c := { c with admitido_mes_anterior := true }
        let w := match c.data_admissao with
          | .vdate y _ _ => if y ≠ 2025 then 1 else 0
          | _ => 0
        (c, e, w)
    else (c, 0, 0)

def admitidosAbrilGo (mesAtual : Nat) : List Colaborador → List Colaborador × Nat × Nat
  | [] => ([], 0, 0)
  | c :: rest =>
    let r := admitidosAbrilRecord mesAtual c
    let r2 := admitidosAbrilGo mesAtual rest
    (r.1 :: r2.1, r.2.1 + r2.2.1, r.2.2 + r2.2.2)

def validar_admitidos_mes_anterior (mesAtual : Nat) (s : VSt) : VSt × Option String :=
  let r := admitidosAbrilGo mesAtual s.dados.colaboradores_ativos
  ({ s with dados := { s.dados with colaboradores_ativos := r.1 },
            erros := s.erros + r.2.1, warnings := s.warnings + r.2.2 }, none)

/-- Default expected working days of _validar_folha_ponto for May 2025:
31 days minus 8 weekend days minus the 5 national holidays of
settings.FERIADOS_MAIO_2025. -/
def folhaDefaultDias : Int := 31 - 8 - 5

/-- Per-record body of _validar_folha_ponto (checks 1-6); the only possible
exception is the first comparison of a non-numeric dias_trabalhados, which
is not caught inside the rule. -/
def folhaRecord (cfgDias : List (String × Int)) (c : Colaborador) :
    Colaborador × Nat × Nat × Option String :=
  let dias := c.dias_trabalhados
  let du := c.dias_uteis
  let planilha := lookupD cfgDias c.sindicato
  let esperados : Int :=
    if pyTruthy du then
      match pyInt du with
      | .ok n => n
      | .error _ => folhaDefaultDias
    else
      match planilha with
      | some dS => if dS ≠ 0 then dS else folhaDefaultDias
      | none => folhaDefaultDias
  match cmpGt dias (esperados : Rat) with
  | .error e => (c, 0, 0, some e)
  | .ok g1 =>
    let w1 := if g1 then 1 else 0
    let duSind : Option Int :=
      match planilha with
      | some x => some x
      | none =>
        match lookupD CONFIGURACAO_SINDICATOS c.sindicato with
        | some cfg => some cfg.dias_uteis_mes
        | none => none
    let w2 := match duSind with
      | some dS => if pyTruthy du && !pyEqInt du dS then 1 else 0
      | none => 0
    match (if c.em_ferias then cmpGt dias 0 else .ok false) with
    | .error e => (c, 0, w1 + w2, some e)
    | .ok f3 =>
      let e3 := if f3 then 1 else 0
      match (match c.data_desligamento with
             | .vdate _ _ dd => if dd ≤ 15 then cmpGt dias 0 else .ok false
             | _ => .ok false) with
      | .error e => (c, e3, w1 + w2, some e)
      | .ok f4 =>
        let w4 := if f4 then 1 else 0
        match cmpGt dias 0, cmpLt dias 15 with
        | .ok p1, .ok p2 =>
          let c := if p1 && p2 then obsAddIfMissingUpper c "DIAS PARCIAIS" "DIAS PARCIAIS" else c
          let w6 := if pyEqInt dias esperados && c.em_ferias then 1 else 0
          (c, e3, w1 + w2 + w4 + w6, none)
        | .error e, _ => (c, e3, w1 + w2 + w4, some e)
        | _, .error e => (c, e3, w1 + w2 + w4, some e)

def folhaGo (cfgDias : List (String × Int)) :
    List Colaborador → List Colaborador × Nat × Nat × Option String
  | [] => ([], 0, 0, none)
  | c :: rest =>
    let r := folhaRecord cfgDias c
    match r.2.2.2 with
    | some err => (r.1 :: rest, r.2.1, r.2.2.1, some err)
    | none =>
      let r2 := folhaGo cfgDias rest
      (r.1 :: r2.1, r.2.1 + r2.2.1, r.2.2.1 + r2.2.2.1, r2.2.2.2)

/-- _validar_folha_ponto. -/
def validar_folha_ponto (s : VSt) : VSt × Option String :=
  let r := folhaGo s.dados.dias_uteis_por_sindicato s.dados.colaboradores_ativos
  ({ s with dados := { s.dados with colaboradores_ativos := r.1 },
            erros := s.erros + r.2.1, warnings := s.warnings + r.2.2.1 }, r.2.2.2)

/-- The director/executive keyword list of _validar_diretores. -/
def cargosDiretores : List String :=
  ["diretor", "diretor geral", "diretor executivo", "diretor administrativo",
   "diretor financeiro", "diretor comercial", "diretor de operações",
   "diretor de rh", "diretor de ti", "presidente", "vice-presidente",
   "ceo", "cfo", "cto", "coo", "coordenador"]

def diretorKeywordMatch (cargo : String) : Bool :=
  cargosDiretores.any (fun k => hasSub cargo k)

/-- Loop of _validar_diretores: demotes every keyword match, records an
error if it was still eligible, and adds the matricula to the
leave-of-absence exclusion list. -/
def diretoresGo : List Colaborador → List String → List Colaborador × List String × Nat
  | [], afa => ([], afa, 0)
  | c :: rest, afa =>
    if diretorKeywordMatch (pyLower c.cargo) then
      let e := if c.elegivel then 1 else 0
      let c2 := { c with elegivel := false, dias_trabalhados := .vint 0,
                         motivo_exclusao := "DIRETOR" }
      let r := diretoresGo rest (adicionarExclusao afa c.matricula)
      (c2 :: r.1, r.2.1, e + r.2.2)
    else
      let r := diretoresGo rest afa
      (c :: r.1, r.2.1, r.2.2)

def validar_diretores (s : VSt) : VSt × Option String :=
  let r := diretoresGo s.dados.colaboradores_ativos s.dados.colaboradores_afastados
  let d2 := { s.dados with colaboradores_ativos := r.1, colaboradores_afastados := r.2.1 }
  ({ s with dados := d2, erros := s.erros + r.2.2 }, none)

/-- Per-record body of _validar_calculo_pagamento: the split percentages
are recomputed by division and must sum to 1 within 0.01 (Decimal division
carries a 28-digit context in Python; the model divides exactly, a
difference far below the 0.01 threshold). -/
def calcPagamentoRecord (c : Colaborador) : Nat :=
  if !c.elegivel then 0
  else
    match toDecimalStr c.valor_total_beneficio, toDecimalStr c.custo_empresa,
          toDecimalStr c.desconto_profissional with
    | .ok vt, .ok ce, .ok dp =>
      if 0 < vt then
        (if mkRat 1 100 < rabs (rsub (radd (rdiv ce vt) (rdiv dp vt)) 1) then 1 else 0)
      else 0
    | _, _, _ => 0

def validar_calculo_pagamento (s : VSt) : VSt × Option String :=
  ({ s with erros := s.erros + (s.dados.colaboradores_ativos.map calcPagamentoRecord).sum }, none)

/-- Block 1 of _validar_datas_quebradas (mid-month admission); its
try/except handler only logs, so a comparison TypeError abandons the block
before any mutation. -/
def datasAdmissaoBlock (c : Colaborador) : Colaborador × Nat :=
  if !pyTruthy c.data_admissao then (c, 0)
  else
    match c.data_admissao with
    | .vdate _ _ diaA =>
      if diaA > 1 then
        let esper : Int := 31 - (diaA : Int) + 1
        match cmpGt c.dias_trabalhados (esper : Rat) with
        | .error _ => (c, 0)
        | .ok g =>
          let w1 := if g then 1 else 0
          let c := if !hasSub (pyUpper c.observacoes) "ADMISSÃO PARCIAL" then
              { c with observacoes := obsAppend c.observacoes ("ADMISSÃO DIA " ++ toString diaA) }
            else c
          let w2 := match lookupD CONFIGURACAO_SINDICATOS c.sindicato with
            | some cfg => if !cfg.regras_especiais.contains "Admissão proporcional" then 1 else 0
            | none => 0
          (c, w1 + w2)
      else (c, 0)
    | _ => (c, 0)

/-- Block 2 of _validar_datas_quebradas (mid-month termination). -/
def datasDesligamentoBlock (c : Colaborador) : Colaborador × Nat :=
  if !pyTruthy c.data_desligamento then (c, 0)
  else
    match c.data_desligamento with
    | .vdate _ _ diaD =>
      if diaD ≤ 15 then
        match cmpGt c.dias_trabalhados 0 with
        | .error _ => (c, 0)
        | .ok g =>
          let w1 := if g then 1 else 0
          let c := { c with elegivel := false, dias_trabalhados := .vint 0 }
          let c := obsAddIfMissingUpper c "DESLIGADO ATÉ DIA 15" "DESLIGADO ATÉ DIA 15"
          (c, w1)
      else
        match cmpGt c.dias_trabalhados ((diaD : Int) : Rat) with
        | .error _ => (c, 0)
        | .ok g =>
          let w1 := if g then 1 else 0
          let c := if !hasSub (pyUpper c.observacoes) "DESLIGAMENTO PARCIAL" then
              { c with observacoes := obsAppend c.observacoes ("DESLIGAMENTO DIA " ++ toString diaD) }
            else c
          let w2 := match lookupD CONFIGURACAO_SINDICATOS c.sindicato with
            | some cfg => if !cfg.regras_especiais.contains "Desligamento proporcional" then 1 else 0
            | none => 0
          (c, w1 + w2)
    | _ => (c, 0)

/-- Block 3 of _validar_datas_quebradas (admission and termination in the
same month). -/
def datasMesmoMesBlock (c : Colaborador) : Nat :=
  if pyTruthy c.data_admissao && pyTruthy c.data_desligamento then
    match c.data_admissao, c.data_desligamento with
    | .vdate _ mA _, .vdate _ mD _ => if mA = mD then 1 else 0
    | _, _ => 0
  else 0

def datasQuebradasRecord (c : Colaborador) : Colaborador × Nat :=
  let r1 := datasAdmissaoBlock c
  let r2 := datasDesligamentoBlock r1.1
  let w3 := datasMesmoMesBlock r2.1
  (r2.1, r1.2 + r2.2 + w3)

def datasQuebradasGo : List Colaborador → List Colaborador × Nat
  | [] => ([], 0)
  | c :: rest =>
    let r := datasQuebradasRecord c
    let r2 := datasQuebradasGo rest
    (r.1 :: r2.1, r.2 + r2.2)

/-- _validar_datas_quebradas (every message it emits goes through
adicionar_warning). -/
def validar_datas_quebradas (s : VSt) : VSt × Option String :=
  let r := datasQuebradasGo s.dados.colaboradores_ativos
  ({ s with dados := { s.dados with colaboradores_ativos := r.1 },
            warnings := s.warnings + r.2 }, none)

/-- Sequencing of AgenteValidador._executar_agente: the rules run in source
order inside a single try, so the first raised exception skips every
remaining rule. -/
def seqRule (r : VSt × Option String) (rule : VSt → VSt × Option String) :
    VSt × Option String :=
  match r with
  | (s, some e) => (s, some e)
  | (s, none) => rule s

def runRules (mesAtual : Nat) (d : DadosEntrada) : VSt × Option String :=
  let r : VSt × Option String := (⟨d, 0, 0, 0, 0⟩, none)
  let r := seqRule r validar_exterior
  let r := seqRule r validar_estagiarios
  let r := seqRule r validar_aprendiz
  let r := seqRule r validar_afastados
  let r := seqRule r validar_acordos_coletivos
  let r := seqRule r validar_matriculas
  let r := seqRule r validar_consistencia
  let r := seqRule r validar_calculos
  let r := seqRule r validar_totais
  let r := seqRule r validar_ferias
  let r := seqRule r validar_desligamento_dia_15
  let r := seqRule r validar_desligamento_dia_16_plus
  let r := seqRule r (validar_admitidos_mes mesAtual)
  let r := seqRule r (validar_admitidos_mes_anterior mesAtual)
  let r := seqRule r validar_folha_ponto
  let r := seqRule r validar_diretores
  let r := seqRule r validar_calculo_pagamento
  let r := seqRule r validar_datas_quebradas
  r

/-- The result dict of AgenteValidador._executar_agente. -/
structure ResultadoValidacao where
  sucesso : Bool
  total_erros : Nat
  total_warnings : Nat
  erro : Option String
  registros_processados : Nat
deriving DecidableEq, Repr

/-- AgenteValidador._executar_agente: on a clean run, success is decided by
the total error count; an exception anywhere yields the failure dict with
one error, zero warnings and zero processed records.  The mutated dataset
is returned alongside (it is shared state in the source). -/
def executarValidador (mesAtual : Nat) (d : DadosEntrada) :
    ResultadoValidacao × DadosEntrada :=
  match runRules mesAtual d with
  | (s, none) =>
    let te := s.erros + s.erros_list
    let tw := s.warnings + s.warnings_list
    (⟨te = 0, te, tw, none, s.dados.colaboradores_ativos.length⟩, s.dados)
  | (s, some e) => (⟨false, 1, 0, some e, 0⟩, s.dados)

/-- The Coordinator's full run (executar_fluxo_completo) restricted to the
dataset-mutating stages: Cleaner, Calculator plus totals overwrite, then
Validator.  A stage-fatal exception or a failed validation aborts the run
with False; the Generator stage only formats output and rewrites none of
the modelled fields. -/
def fluxoCompleto (mesAtual : Nat) (d0 : DadosEntrada) : Bool × DadosEntrada :=
  let d1 := limpezaRun d0
  match faseCalculos d1 with
  | .error _ => (false, d1)
  | .ok d3 =>
    let r := executarValidador mesAtual d3
    (r.1.sucesso, r.2)

/-- The default fields of a freshly added record
(DadosEntrada.adicionar_colaborador_ativo). -/
def colabBase : Colaborador :=
  { matricula := "", nome := "", cargo := "", situacao := "", sindicato := "",
    ativo := true, elegivel := true, em_ferias := false, admitido_mes_anterior := false,
    dias_ferias := .vint 0, dias_trabalhados := .vint 0, dias_uteis := .vint 0,
    valor_vr := .vint 0, valor_total_beneficio := .vint 0, custo_empresa := .vint 0,
    desconto_profissional := .vint 0, data_admissao := .vnone, data_desligamento := .vnone,
    observacoes := "", motivo_exclusao := "" }

/-- A fresh dataset (the field defaults of DadosEntrada). -/
def dadosBase : DadosEntrada :=
  { colaboradores_ativos := [], colaboradores_ferias := [], colaboradores_desligados := [],
    config_sindicatos := [], dias_uteis_por_sindicato := [],
    colaboradores_exterior := [], colaboradores_estagiarios := [],
    colaboradores_aprendiz := [], colaboradores_afastados := [],
    total_beneficios := 0, total_custo_empresa := 0, total_desconto_profissionais := 0,
    colaboradores_validos := 0 }

/-! ## Concrete datasets used by the claim theorems -/

/-- An employee of the full-vacation union SINDICATO_QUIMICOS, on vacation,
submitted with days_worked = 5 and a daily voucher value of 28. -/
def colabFeriasIntegrais : Colaborador :=
  { colabBase with
    matricula := "500", sindicato := "SINDICATO_QUIMICOS", em_ferias := true,
    dias_trabalhados := .vint 5, valor_vr := .vdec 28 }

/-- Claim C1: for an active employee of a full-vacation-policy union with
em_ferias, the Validator's vacation rule is claimed to force days_worked = 0,
eligible = false and zeroed monetary fields, raising an error for a record
submitted with days_worked = 5.  The code records the error and zeroes
days_worked, but the benefit-recomputation block then reads the stale local
days value (5), so the record ends ELIGIBLE with total 140 = 28 × 5,
employer cost 112 and employee deduction 28 — contradicting the rule's own
comments that a full-vacation employee is ineligible and receives nothing.
This theorem evaluates the embedded rule at that failing input. -/
theorem C1_ferias_integrais_bug_eval :
    (validarFeriasRecord colabFeriasIntegrais).2.1 = 1 ∧
    (validarFeriasRecord colabFeriasIntegrais).2.2.2 = none ∧
    (validarFeriasRecord colabFeriasIntegrais).1.elegivel = true ∧
    (validarFeriasRecord colabFeriasIntegrais).1.dias_trabalhados = Value.vint 0 ∧
    (validarFeriasRecord colabFeriasIntegrais).1.valor_total_beneficio = Value.vdec 140 ∧
    (validarFeriasRecord colabFeriasIntegrais).1.custo_empresa = Value.vdec 112 ∧
    (validarFeriasRecord colabFeriasIntegrais).1.desconto_profissional = Value.vdec 28 := by
  decide

/-- Claim C3: for every employee found in the termination side-table with an
extractable date, the Cleaner's termination pass makes the record
ineligible with zero days when the day-of-month is at most 15, eligible
with day − 1 worked days when it is greater, and the except branch of the
rule forces ineligible with zero days. -/
theorem C3_regra_dia15 (tab : List DesligadoRow) (c : Colaborador)
    (dl : DesligadoRow) (y m dia : Nat)
    (hfind : buscarDesligado tab c.matricula = some dl)
    (hdate : dl.data_demissao = .vdate y m dia) :
    ((dia ≤ 15 →
       (processarDesligamentoRecord DIA_LIMITE_DESLIGAMENTO tab c).elegivel = false ∧
       (processarDesligamentoRecord DIA_LIMITE_DESLIGAMENTO tab c).dias_trabalhados = Value.vint 0) ∧
     (15 < dia →
       (processarDesligamentoRecord DIA_LIMITE_DESLIGAMENTO tab c).elegivel = true ∧
       (processarDesligamentoRecord DIA_LIMITE_DESLIGAMENTO tab c).dias_trabalhados =
         Value.vint ((dia : Int) - 1)) ∧
     (∀ (e : String) (c2 : Colaborador),
       (regraDia15 DIA_LIMITE_DESLIGAMENTO c2 (.error e)).elegivel = false ∧
       (regraDia15 DIA_LIMITE_DESLIGAMENTO c2 (.error e)).dias_trabalhados = Value.vint 0)) := by
  unfold processarDesligamentoRecord
  rw [hfind]
  simp only [hdate, pyTruthy, extrairDia]
  refine ⟨?_, ?_, ?_⟩
  · intro hle
    simp [regraDia15, diaDemissao, DIA_LIMITE_DESLIGAMENTO, hle]
  · intro hgt
    have : ¬ dia ≤ 15 := by omega
    simp [regraDia15, diaDemissao, DIA_LIMITE_DESLIGAMENTO, this]
  · intro e c2
    simp [regraDia15]

def tabDesligadoW : List DesligadoRow := [⟨"1", .vdate 2025 5 20⟩]

def colabDesligadoW : Colaborador := { colabBase with matricula := "1" }

theorem C3_regra_dia15_witness :
    (processarDesligamentoRecord DIA_LIMITE_DESLIGAMENTO tabDesligadoW colabDesligadoW).elegivel = true ∧
    (processarDesligamentoRecord DIA_LIMITE_DESLIGAMENTO tabDesligadoW colabDesligadoW).dias_trabalhados =
      Value.vint 19 :=
  (C3_regra_dia15 tabDesligadoW colabDesligadoW ⟨"1", .vdate 2025 5 20⟩ 2025 5 20
    (by decide) rfl).2.1 (by decide)

/-- A record whose days_worked field holds the non-numeric, non-blank
string "abc", under a union with daily value 28 and 22 working days. -/
def colabParseFalha : Colaborador :=
  { colabBase with
    matricula := "300", sindicato := "S", dias_trabalhados := .vstr "abc" }

/-- Claim C4 counterexample: the claim says a parse failure yields
days_worked = 0, but the Calculator falls back to the union's working-day
count: the record with days_worked "abc" ends with days_worked 22, not 0. -/
theorem C4_parse_falha_counterexample :
    (calcBeneficiosRecord [("S", 28)] [("S", 22)] CUSTO_EMPRESA_PERCENTUAL
      CUSTO_PROFISSIONAL_PERCENTUAL colabParseFalha).dias_trabalhados = Value.vint 22 ∧
    Value.vint 22 ≠ Value.vint 0 := by
  decide

/-- Claim C4 as amended: for a present, non-blank days_worked value, a
successful numeric parse is truncated to an integer and clamped at 0 only
when negative; a parse FAILURE falls back to the union's configured
working-day count (clamped at 0 if that is negative), not to 0. -/
theorem C4_amended_days_resolution (du : Int) (v : Value)
    (hv : diasBranco v = false) :
    (∀ n, pyIntFloat v = .ok n →
       resolveDiasTrabalhados du v = if n < 0 then 0 else n) ∧
    (∀ e, pyIntFloat v = .error e →
       resolveDiasTrabalhados du v = if du < 0 then 0 else du) := by
  constructor
  · intro n hn
    unfold resolveDiasTrabalhados
    rw [hv]
    simp only [Bool.false_eq_true, if_false]
    rw [hn]
  · intro e he
    unfold resolveDiasTrabalhados
    rw [hv]
    simp only [Bool.false_eq_true, if_false]
    rw [he]

theorem C4_amended_witness :
    resolveDiasTrabalhados 22 (Value.vstr "abc") = if (22 : Int) < 0 then 0 else 22 :=
  (C4_amended_days_resolution 22 (Value.vstr "abc") (by decide)).2
    "ValueError: could not convert string to float" rfl

/-- Claim C9: a record whose role contains 'diretor' or 'coordenador'
(after lowercasing) is never removed by the role pass, even when the role
also matches the removal keywords: it is kept with eligible = false,
days_worked = 0 and the exclusion reason set, and its matricula is not
added to the intern or apprentice lists by the processing of that record
(the director branch takes precedence). -/
theorem C9_diretor_precede_remocao (c : Colaborador) (rest : List Colaborador)
    (est apr : List String) (h : diretorMatch (pyLower c.cargo) = true) :
    cargoGo (c :: rest) est apr =
      (dirUpdate c :: (cargoGo rest est apr).1, (cargoGo rest est apr).2) ∧
    (dirUpdate c).elegivel = false ∧
    (dirUpdate c).dias_trabalhados = Value.vint 0 ∧
    (dirUpdate c).motivo_exclusao = "CARGO_DIRETORIA/COORDENACAO" := by
  refine ⟨?_, rfl, rfl, rfl⟩
  conv_lhs => rw [cargoGo]
  simp [h]

def colabDiretorEstagiario : Colaborador :=
  { colabBase with matricula := "7", cargo := "Coordenador Estagiario" }

theorem C9_diretor_precede_remocao_witness :
    cargoGo [colabDiretorEstagiario] ["77"] ["88"] =
      (dirUpdate colabDiretorEstagiario :: (cargoGo [] ["77"] ["88"]).1,
       (cargoGo [] ["77"] ["88"]).2) ∧
    (dirUpdate colabDiretorEstagiario).elegivel = false ∧
    (dirUpdate colabDiretorEstagiario).dias_trabalhados = Value.vint 0 ∧
    (dirUpdate colabDiretorEstagiario).motivo_exclusao = "CARGO_DIRETORIA/COORDENACAO" :=
  C9_diretor_precede_remocao colabDiretorEstagiario [] ["77"] ["88"] (by decide)

/-- When one of the four guard clauses of _calcular_beneficios fires
(continue in the source), the record is returned with every field
unchanged. -/
theorem calcBeneficiosRecord_skip (cfgV : List (String × Rat)) (cfgD : List (String × Int))
    (pe pp : Rat) (c : Colaborador)
    (h : c.elegivel = false ∨ c.sindicato = "" ∨
         (lookupD cfgV c.sindicato).getD 0 = 0 ∨
         (lookupD cfgD c.sindicato).getD 0 ≤ 0) :
    calcBeneficiosRecord cfgV cfgD pe pp c = c := by
  unfold calcBeneficiosRecord
  rcases h with h | h | h | h
  · simp [h]
  · by_cases he : c.elegivel
    · simp [he, h]
    · simp [he]
  · by_cases he : c.elegivel
    · by_cases hs : c.sindicato = ""
      · simp [he, hs]
      · simp [he, hs, h]
    · simp [he]
  · by_cases he : c.elegivel
    · by_cases hs : c.sindicato = ""
      · simp [he, hs]
      · by_cases hv : (lookupD cfgV c.sindicato).getD 0 = 0
        · simp [he, hs, hv]
        · have hz : ((lookupD cfgD c.sindicato).getD 0 = 0) ∨
              (lookupD cfgD c.sindicato).getD 0 ≤ 0 := Or.inr h
          by_cases hd0 : (lookupD cfgD c.sindicato).getD 0 = 0
          · simp [he, hs, hv, hd0]
          · simp [he, hs, hv, hd0, h]
    · simp [he]

/-- Claim C10: every record the Calculator's per-record benefit pass skips
(not eligible, no union, union without a daily value, or union without a
positive working-day count) is returned with every field unchanged. -/
theorem C10_calculo_skip_frame (cfgV : List (String × Rat)) (cfgD : List (String × Int))
    (pe pp : Rat) (c : Colaborador)
    (h : c.elegivel = false ∨ c.sindicato = "" ∨
         (lookupD cfgV c.sindicato).getD 0 = 0 ∨
         (lookupD cfgD c.sindicato).getD 0 ≤ 0) :
    calcBeneficiosRecord cfgV cfgD pe pp c = c :=
  calcBeneficiosRecord_skip cfgV cfgD pe pp c h

def colabSemSindicato : Colaborador := { colabBase with matricula := "42" }

theorem C10_calculo_skip_frame_witness :
    calcBeneficiosRecord [("S", 28)] [("S", 22)] CUSTO_EMPRESA_PERCENTUAL
      CUSTO_PROFISSIONAL_PERCENTUAL colabSemSindicato = colabSemSindicato :=
  C10_calculo_skip_frame [("S", 28)] [("S", 22)] CUSTO_EMPRESA_PERCENTUAL
    CUSTO_PROFISSIONAL_PERCENTUAL colabSemSindicato (Or.inr (Or.inl (by decide)))

/-- The employer/employee split invariant on a record's monetary fields:
whenever they are all numeric and the total is positive, employer cost plus
employee deduction equals the total within 0.01. -/
def moneyInvB (c : Colaborador) : Bool :=
  match valNum c.valor_total_beneficio, valNum c.custo_empresa,
        valNum c.desconto_profissional with
  | some vt, some ce, some dp =>
    decide (vt ≤ 0) || decide (rabs (rsub (radd ce dp) vt) ≤ mkRat 1 100)
  | _, _, _ => true

theorem moneyInvB_of_fields_eq (c c2 : Colaborador)
    (h1 : c2.valor_total_beneficio = c.valor_total_beneficio)
    (h2 : c2.custo_empresa = c.custo_empresa)
    (h3 : c2.desconto_profissional = c.desconto_profissional) :
    moneyInvB c2 = moneyInvB c := by
  unfold moneyInvB
  rw [h1, h2, h3]

/-- Every entry of the configured union table splits the benefit into
percentages summing to exactly 1. -/
theorem lookup_config_percentuais (k : String) (cfg : ConfigSindicato)
    (h : lookupD CONFIGURACAO_SINDICATOS k = some cfg) :
    cfg.percentual_empresa + cfg.percentual_profissional = 1 := by
  unfold lookupD at h
  obtain ⟨p, hfind, hsnd⟩ := Option.map_eq_some'.mp h
  have hmem := List.mem_of_find?_eq_some hfind
  have hall : ∀ p ∈ CONFIGURACAO_SINDICATOS,
      p.snd.percentual_empresa + p.snd.percentual_profissional = 1 := by
    intro q hq
    fin_cases hq <;> norm_num [Rat.mkRat_eq_div]
  rw [← hsnd]
  exact hall p hmem

/-- A freshly written split is exact: total × pe plus total × pp equals the
total whenever pe + pp = 1. -/
theorem split_exact (vt pe pp : Rat) (hsum : pe + pp = 1) :
    rabs (rsub (radd (rmul vt pe) (rmul vt pp)) vt) ≤ mkRat 1 100 := by
  rw [rabs_eq, rsub_eq, radd_eq, rmul_eq, rmul_eq]
  have hz : vt * pe + vt * pp - vt = 0 := by
    have : vt * pe + vt * pp = vt * (pe + pp) := by ring
    rw [this, hsum]
    ring
  rw [hz]
  norm_num [Rat.mkRat_eq_div]

theorem moneyInvB_write (vt pe pp : Rat) (c : Colaborador) (hsum : pe + pp = 1)
    (h1 : c.valor_total_beneficio = .vdec vt)
    (h2 : c.custo_empresa = .vdec (rmul vt pe))
    (h3 : c.desconto_profissional = .vdec (rmul vt pp)) :
    moneyInvB c = true := by
  unfold moneyInvB
  rw [h1, h2, h3]
  simp only [valNum]
  have hexact : rabs (rsub (radd (rmul vt pe) (rmul vt pp)) vt) ≤ mkRat 1 100 :=
    split_exact vt pe pp hsum
  have hwr : rabs (rsub (radd (rmul vt pe) (rmul vt pp)) vt) =
      rabs (rsub (radd (rmul vt pe) (rmul vt pp)) vt) := rfl
  simp [hexact]

theorem moneyInvB_obsAdd (c : Colaborador) (n a : String) :
    moneyInvB (obsAddIfMissing c n a) = moneyInvB c := by
  unfold obsAddIfMissing
  split
  · exact moneyInvB_of_fields_eq c _ rfl rfl rfl
  · rfl

theorem moneyInvB_obsAddUpper (c : Colaborador) (n a : String) :
    moneyInvB (obsAddIfMissingUpper c n a) = moneyInvB c := by
  unfold obsAddIfMissingUpper
  split
  · exact moneyInvB_of_fields_eq c _ rfl rfl rfl
  · rfl

theorem feriasRecompute_moneyInv (cfg : ConfigSindicato) (dias : Value)
    (c : Colaborador) (e w : Nat)
    (hsum : cfg.percentual_empresa + cfg.percentual_profissional = 1)
    (h : moneyInvB c = true) :
    moneyInvB (feriasRecompute cfg dias c e w).1 = true := by
  have helig : moneyInvB { c with elegivel := true } = true := by
    rw [moneyInvB_of_fields_eq c { c with elegivel := true } rfl rfl rfl]
    exact h
  unfold feriasRecompute
  cases hv : toDecimalStr c.valor_vr with
  | error err => exact helig
  | ok vr =>
    cases hdi : pyInt dias with
    | error err => exact helig
    | ok di =>
      exact moneyInvB_write (rmul vr ((di : Rat))) cfg.percentual_empresa
        cfg.percentual_profissional _ hsum rfl rfl rfl

theorem feriasCommon_moneyInv (cfg : ConfigSindicato) (regras : RegrasFerias)
    (dias : Value) (c : Colaborador) (e w : Nat)
    (hsum : cfg.percentual_empresa + cfg.percentual_profissional = 1)
    (h : moneyInvB c = true) :
    moneyInvB (feriasCommon cfg regras dias c e w).1 = true := by
  unfold feriasCommon
  have h1 : moneyInvB (feriasEspecialNote regras c) = true := by
    unfold feriasEspecialNote
    split
    · rw [moneyInvB_obsAdd]
      exact h
    · exact h
  unfold feriasSwitch
  cases hg : cmpGt dias 0 with
  | error err => exact h1
  | ok b =>
    cases b with
    | true => exact feriasRecompute_moneyInv cfg dias _ e w hsum h1
    | false =>
      unfold feriasZeroUpdate moneyInvB
      simp [valNum]

theorem feriasIntegralBranch_moneyInv (cfg : ConfigSindicato) (regras : RegrasFerias)
    (dias : Value) (c : Colaborador)
    (hsum : cfg.percentual_empresa + cfg.percentual_profissional = 1)
    (h : moneyInvB c = true) :
    moneyInvB (feriasIntegralBranch cfg regras dias c).1 = true := by
  unfold feriasIntegralBranch
  cases hg : cmpGt dias 0 with
  | error err => exact h
  | ok g =>
    apply feriasCommon_moneyInv _ _ _ _ _ _ hsum
    rw [moneyInvB_obsAddUpper]
    rw [moneyInvB_of_fields_eq c
      { c with elegivel := false, dias_trabalhados := .vint 0 } rfl rfl rfl]
    exact h

theorem feriasParcialBranch_moneyInv (cfg : ConfigSindicato) (regras : RegrasFerias)
    (dias : Value) (c : Colaborador)
    (hsum : cfg.percentual_empresa + cfg.percentual_profissional = 1)
    (h : moneyInvB c = true) :
    moneyInvB (feriasParcialBranch cfg regras dias c).1 = true := by
  unfold feriasParcialBranch
  cases hg : cmpLt dias (regras.dias_minimos : Rat) with
  | error err => exact h
  | ok gl =>
    cases hg2 : cmpGt dias (regras.dias_maximos : Rat) with
    | error err => exact h
    | ok gg =>
      apply feriasCommon_moneyInv _ _ _ _ _ _ hsum
      rw [moneyInvB_obsAddUpper]
      exact h

/-- Claim C5: for eligible records with a positive total, the Calculator
establishes employer_cost + employee_deduction = total_benefit_value within
0.01 (its 80/20 split is exact), and the only later pipeline stage that
rewrites these monetary fields — the Validator's vacation rule, whose
configured splits all sum to 1 — preserves the invariant on the record it
returns. -/
theorem C5_split_invariante :
    (∀ (cfgV : List (String × Rat)) (cfgD : List (String × Int)) (c : Colaborador),
       moneyInvB c = true →
       moneyInvB (calcBeneficiosRecord cfgV cfgD CUSTO_EMPRESA_PERCENTUAL
         CUSTO_PROFISSIONAL_PERCENTUAL c) = true) ∧
    (∀ c : Colaborador, moneyInvB c = true →
       moneyInvB (validarFeriasRecord c).1 = true) := by
  have hsumS : CUSTO_EMPRESA_PERCENTUAL + CUSTO_PROFISSIONAL_PERCENTUAL = 1 := by
    norm_num [CUSTO_EMPRESA_PERCENTUAL, CUSTO_PROFISSIONAL_PERCENTUAL, Rat.mkRat_eq_div]
  constructor
  · intro cfgV cfgD c h
    by_cases h1 : c.elegivel
    · by_cases h2 : c.sindicato = ""
      · simpa [calcBeneficiosRecord, h1, h2] using h
      · by_cases h3 : (lookupD cfgV c.sindicato).getD 0 = 0
        · simpa [calcBeneficiosRecord, h1, h2, h3] using h
        · by_cases h4 : (lookupD cfgD c.sindicato).getD 0 ≤ 0
          · simpa [calcBeneficiosRecord, h1, h2, h3, h4] using h
          · have h5 : ¬ (lookupD cfgD c.sindicato).getD 0 = 0 := by
              intro hz
              exact h4 (le_of_eq hz)
            simp [calcBeneficiosRecord, h1, h2, h3, h4, h5]
            exact moneyInvB_write _ CUSTO_EMPRESA_PERCENTUAL
              CUSTO_PROFISSIONAL_PERCENTUAL _ hsumS rfl rfl rfl
    · simpa [calcBeneficiosRecord, h1] using h
  · intro c h
    unfold validarFeriasRecord
    by_cases hf : c.em_ferias
    · cases hl : lookupD CONFIGURACAO_SINDICATOS c.sindicato with
      | none => simpa [hf, hl] using h
      | some cfg =>
        have hsum := lookup_config_percentuais c.sindicato cfg hl
        cases hr : cfg.regras_ferias with
        | none => simpa [hf, hl, hr] using h
        | some regras =>
          by_cases ht1 : regras.tipo = "integral"
          · simpa [hf, hl, hr, ht1] using
              feriasIntegralBranch_moneyInv cfg regras c.dias_trabalhados c hsum h
          · by_cases ht2 : regras.tipo = "parcial"
            · simpa [hf, hl, hr, ht1, ht2] using
                feriasParcialBranch_moneyInv cfg regras c.dias_trabalhados c hsum h
            · simpa [hf, hl, hr, ht1, ht2] using
                feriasCommon_moneyInv cfg regras c.dias_trabalhados c 0 0 hsum h
    · simpa [hf] using h

theorem C5_split_invariante_witness :
    moneyInvB colabFeriasIntegrais = true ∧
    moneyInvB (calcBeneficiosRecord [("SINDICATO_QUIMICOS", 28)] [("SINDICATO_QUIMICOS", 23)]
      CUSTO_EMPRESA_PERCENTUAL CUSTO_PROFISSIONAL_PERCENTUAL colabFeriasIntegrais) = true ∧
    moneyInvB (validarFeriasRecord colabFeriasIntegrais).1 = true :=
  ⟨by decide,
   C5_split_invariante.1 [("SINDICATO_QUIMICOS", 28)] [("SINDICATO_QUIMICOS", 23)]
     colabFeriasIntegrais (by decide),
   C5_split_invariante.2 colabFeriasIntegrais (by decide)⟩

/-- A dataset on which a validation rule raises: one active record on
vacation under the full-vacation union, whose days_worked holds the
non-numeric string "cinco", and whose role contains 'diretor' so that the
later director rule would tag it had it run. -/
def colabRegraExc : Colaborador :=
  { colabBase with
    matricula := "200", cargo := "diretor", sindicato := "SINDICATO_QUIMICOS",
    em_ferias := true, dias_trabalhados := .vstr "cinco", dias_uteis := .vint 23 }

def dadosRegraExc : DadosEntrada :=
  { dadosBase with
    colaboradores_ativos := [colabRegraExc],
    config_sindicatos := [("SINDICATO_QUIMICOS", 28)],
    dias_uteis_por_sindicato := [("SINDICATO_QUIMICOS", 23)] }

/-- Claim C2 counterexample: the claim says a rule-body exception is caught
and recorded as a warning attributed to that rule, with the remaining rules
still running.  On this dataset the vacation rule raises a TypeError; the
run reports zero warnings (the exception became the overall failure with
total_erros = 1), and the later director rule never ran: the record's role
matches the director keywords yet its motivo_exclusao is still empty. -/
theorem C2_excecao_counterexample :
    diretorKeywordMatch (pyLower colabRegraExc.cargo) = true ∧
    (executarValidador 5 dadosRegraExc).1.sucesso = false ∧
    (executarValidador 5 dadosRegraExc).1.total_erros = 1 ∧
    (executarValidador 5 dadosRegraExc).1.total_warnings = 0 ∧
    (executarValidador 5 dadosRegraExc).1.erro =
      some "TypeError: comparison between non-numeric and int" ∧
    ((executarValidador 5 dadosRegraExc).2.colaboradores_ativos.map
      (fun c => c.motivo_exclusao)) = [""] := by
  decide

/-- Claim C2 as amended: a rule-body exception is caught by the Validator's
single top-level handler, not per rule: the run stops at the raising rule
(the remaining rules do not run), and the result is the failure dict with
the exception message, total_erros = 1, total_warnings = 0 and
registros_processados = 0; the exception does not propagate to the caller. -/
theorem C2_amended_excecao_top_level (mes : Nat) (d : DadosEntrada) (s : VSt) (e : String)
    (h : runRules mes d = (s, some e)) :
    executarValidador mes d =
      (⟨false, 1, 0, some e, 0⟩, s.dados) := by
  unfold executarValidador
  rw [h]

theorem C2_amended_excecao_top_level_witness :
    executarValidador 5 dadosRegraExc =
      (⟨false, 1, 0, some "TypeError: comparison between non-numeric and int", 0⟩,
       dadosRegraExc) :=
  C2_amended_excecao_top_level 5 dadosRegraExc ⟨dadosRegraExc, 0, 0, 0, 0⟩
    "TypeError: comparison between non-numeric and int" (by decide)

/-! ## Cleaner lemmas: field preservation, pass characterisations,
idempotence -/

/-- The per-record action of a second role pass on a record the first run
kept: directors are re-updated, everyone else passes through. -/
def cargoKeepUpdate (c : Colaborador) : Colaborador :=
  if diretorMatch (pyLower c.cargo) then dirUpdate c else c

@[simp] theorem dirUpdate_matricula (c : Colaborador) : (dirUpdate c).matricula = c.matricula := rfl

@[simp] theorem dirUpdate_cargo (c : Colaborador) : (dirUpdate c).cargo = c.cargo := rfl

@[simp] theorem dirUpdate_situacao (c : Colaborador) : (dirUpdate c).situacao = c.situacao := rfl

@[simp] theorem cargoKeepUpdate_matricula (c : Colaborador) :
    (cargoKeepUpdate c).matricula = c.matricula := by
  unfold cargoKeepUpdate
  split <;> rfl

@[simp] theorem cargoKeepUpdate_cargo (c : Colaborador) :
    (cargoKeepUpdate c).cargo = c.cargo := by
  unfold cargoKeepUpdate
  split <;> rfl

@[simp] theorem cargoKeepUpdate_situacao (c : Colaborador) :
    (cargoKeepUpdate c).situacao = c.situacao := by
  unfold cargoKeepUpdate
  split <;> rfl

@[simp] theorem feriasRecord_matricula (tab : List FeriasRow) (c : Colaborador) :
    (processarFeriasRecord tab c).matricula = c.matricula := by
  unfold processarFeriasRecord
  cases buscarFerias tab c.matricula <;> rfl

@[simp] theorem feriasRecord_cargo (tab : List FeriasRow) (c : Colaborador) :
    (processarFeriasRecord tab c).cargo = c.cargo := by
  unfold processarFeriasRecord
  cases buscarFerias tab c.matricula <;> rfl

@[simp] theorem feriasRecord_situacao (tab : List FeriasRow) (c : Colaborador) :
    (processarFeriasRecord tab c).situacao = c.situacao := by
  unfold processarFeriasRecord
  cases buscarFerias tab c.matricula <;> rfl

@[simp] theorem regraDia15_matricula (lim : Nat) (c : Colaborador) (r : Except String Nat) :
    (regraDia15 lim c r).matricula = c.matricula := by
  cases r with
  | error e => rfl
  | ok dia =>
    simp only [regraDia15]
    split <;> rfl

@[simp] theorem regraDia15_cargo (lim : Nat) (c : Colaborador) (r : Except String Nat) :
    (regraDia15 lim c r).cargo = c.cargo := by
  cases r with
  | error e => rfl
  | ok dia =>
    simp only [regraDia15]
    split <;> rfl

@[simp] theorem regraDia15_situacao (lim : Nat) (c : Colaborador) (r : Except String Nat) :
    (regraDia15 lim c r).situacao = c.situacao := by
  cases r with
  | error e => rfl
  | ok dia =>
    simp only [regraDia15]
    split <;> rfl

@[simp] theorem desligRecord_matricula (lim : Nat) (tab : List DesligadoRow) (c : Colaborador) :
    (processarDesligamentoRecord lim tab c).matricula = c.matricula := by
  cases hb : buscarDesligado tab c.matricula with
  | none => simp [processarDesligamentoRecord, hb]
  | some dl =>
    by_cases ht : pyTruthy dl.data_demissao
    · simp [processarDesligamentoRecord, hb, ht]
    · simp [processarDesligamentoRecord, hb, ht]

@[simp] theorem desligRecord_cargo (lim : Nat) (tab : List DesligadoRow) (c : Colaborador) :
    (processarDesligamentoRecord lim tab c).cargo = c.cargo := by
  cases hb : buscarDesligado tab c.matricula with
  | none => simp [processarDesligamentoRecord, hb]
  | some dl =>
    by_cases ht : pyTruthy dl.data_demissao
    · simp [processarDesligamentoRecord, hb, ht]
    · simp [processarDesligamentoRecord, hb, ht]

@[simp] theorem desligRecord_situacao (lim : Nat) (tab : List DesligadoRow) (c : Colaborador) :
    (processarDesligamentoRecord lim tab c).situacao = c.situacao := by
  cases hb : buscarDesligado tab c.matricula with
  | none => simp [processarDesligamentoRecord, hb]
  | some dl =>
    by_cases ht : pyTruthy dl.data_demissao
    · simp [processarDesligamentoRecord, hb, ht]
    · simp [processarDesligamentoRecord, hb, ht]

/-- The full per-record transformation of one Cleaner run, as experienced by
a record the run keeps: role update, vacation merge, termination merge. -/
def cicloLimpeza (tabF : List FeriasRow) (tabD : List DesligadoRow) (c : Colaborador) :
    Colaborador :=
  processarDesligamentoRecord DIA_LIMITE_DESLIGAMENTO tabD
    (processarFeriasRecord tabF (cargoKeepUpdate c))

/-- One Cleaner run's per-record transformation is idempotent: the role
update rewrites the same literals, the vacation merge re-finds the same row
(matricula fields are never changed), and the termination merge recomputes
the same eligibility from the same termination date. -/
theorem cicloLimpeza_idem (tabF : List FeriasRow) (tabD : List DesligadoRow)
    (c0 : Colaborador) :
    cicloLimpeza tabF tabD (cicloLimpeza tabF tabD c0) = cicloLimpeza tabF tabD c0 := by
  unfold cicloLimpeza
  by_cases hdir : diretorMatch (pyLower c0.cargo) = true
  all_goals cases hF : buscarFerias tabF c0.matricula with
  | some f =>
    cases hD : buscarDesligado tabD c0.matricula with
    | none =>
      simp [cargoKeepUpdate, dirUpdate, processarFeriasRecord,
        processarDesligamentoRecord, hdir, hF, hD]
    | some dl =>
      by_cases ht : pyTruthy dl.data_demissao = true
      · by_cases hle : diaDemissao dl.data_demissao ≤ DIA_LIMITE_DESLIGAMENTO
        · simp [cargoKeepUpdate, dirUpdate, processarFeriasRecord,
            processarDesligamentoRecord, regraDia15, extrairDia, hdir, hF, hD, ht, hle]
        · simp [cargoKeepUpdate, dirUpdate, processarFeriasRecord,
            processarDesligamentoRecord, regraDia15, extrairDia, hdir, hF, hD, ht, hle]
      · simp [cargoKeepUpdate, dirUpdate, processarFeriasRecord,
          processarDesligamentoRecord, hdir, hF, hD, ht]
  | none =>
    cases hD : buscarDesligado tabD c0.matricula with
    | none =>
      simp [cargoKeepUpdate, dirUpdate, processarFeriasRecord,
        processarDesligamentoRecord, hdir, hF, hD]
    | some dl =>
      by_cases ht : pyTruthy dl.data_demissao = true
      · by_cases hle : diaDemissao dl.data_demissao ≤ DIA_LIMITE_DESLIGAMENTO
        · simp [cargoKeepUpdate, dirUpdate, processarFeriasRecord,
            processarDesligamentoRecord, regraDia15, extrairDia, hdir, hF, hD, ht, hle]
        · simp [cargoKeepUpdate, dirUpdate, processarFeriasRecord,
            processarDesligamentoRecord, regraDia15, extrairDia, hdir, hF, hD, ht, hle]
      · simp [cargoKeepUpdate, dirUpdate, processarFeriasRecord,
          processarDesligamentoRecord, hdir, hF, hD, ht]

/-- When every record is kept by the role pass (director or neutral role),
the pass maps the director update over the list and leaves both exclusion
lists untouched. -/
theorem cargoGo_keep : ∀ (l : List Colaborador) (est apr : List String),
    (∀ c ∈ l, diretorMatch (pyLower c.cargo) = true ∨
      cargoExcluidoMatch (pyLower c.cargo) = false) →
    cargoGo l est apr = (l.map cargoKeepUpdate, est, apr)
  | [], est, apr, _ => rfl
  | c :: rest, est, apr, h => by
    have hc := h c (List.mem_cons_self c rest)
    have hrest := fun x hx => h x (List.mem_cons_of_mem c hx)
    by_cases hd : diretorMatch (pyLower c.cargo) = true
    · simp [cargoGo, hd, cargoKeepUpdate, cargoGo_keep rest est apr hrest]
    · have hex : cargoExcluidoMatch (pyLower c.cargo) = false := hc.resolve_left hd
      simp [cargoGo, hd, hex, cargoKeepUpdate, cargoGo_keep rest est apr hrest]

/-- Every record the role pass keeps is the director update (or the
identity) of a record of the input list that the pass does not remove. -/
theorem cargoGo_mem : ∀ (l : List Colaborador) (est apr : List String) (x : Colaborador),
    x ∈ (cargoGo l est apr).1 →
    ∃ c0 ∈ l, x = cargoKeepUpdate c0 ∧
      (diretorMatch (pyLower c0.cargo) = true ∨ cargoExcluidoMatch (pyLower c0.cargo) = false)
  | [], _, _, x, hx => absurd hx (by simp [cargoGo])
  | c :: rest, est, apr, x, hx => by
    by_cases hd : diretorMatch (pyLower c.cargo) = true
    · rw [show cargoGo (c :: rest) est apr =
        (dirUpdate c :: (cargoGo rest est apr).1, (cargoGo rest est apr).2) by
          simp [cargoGo, hd]] at hx
      rcases List.mem_cons.mp hx with h1 | h2
      · exact ⟨c, List.mem_cons_self c rest, by simp [h1, cargoKeepUpdate, hd], Or.inl hd⟩
      · obtain ⟨c0, hc0, hxe, hcond⟩ := cargoGo_mem rest est apr x h2
        exact ⟨c0, List.mem_cons_of_mem c hc0, hxe, hcond⟩
    · by_cases hex : cargoExcluidoMatch (pyLower c.cargo) = true
      · by_cases hest : hasSub (pyLower c.cargo) "estagiario" = true
        · rw [show cargoGo (c :: rest) est apr =
            cargoGo rest (adicionarExclusao est c.matricula) apr by
              simp [cargoGo, hd, hex, hest]] at hx
          obtain ⟨c0, hc0, hxe, hcond⟩ := cargoGo_mem rest _ apr x hx
          exact ⟨c0, List.mem_cons_of_mem c hc0, hxe, hcond⟩
        · rw [show cargoGo (c :: rest) est apr =
            cargoGo rest est (adicionarExclusao apr c.matricula) by
              simp [cargoGo, hd, hex, hest]] at hx
          obtain ⟨c0, hc0, hxe, hcond⟩ := cargoGo_mem rest est _ x hx
          exact ⟨c0, List.mem_cons_of_mem c hc0, hxe, hcond⟩
      · rw [show cargoGo (c :: rest) est apr =
          (c :: (cargoGo rest est apr).1, (cargoGo rest est apr).2) by
            simp [cargoGo, hd, hex]] at hx
        rcases List.mem_cons.mp hx with h1 | h2
        · refine ⟨c, List.mem_cons_self c rest, ?_, Or.inr (by simp [hex])⟩
          simp [h1, cargoKeepUpdate, hd]
        · obtain ⟨c0, hc0, hxe, hcond⟩ := cargoGo_mem rest est apr x h2
          exact ⟨c0, List.mem_cons_of_mem c hc0, hxe, hcond⟩

/-- When no record matches the removal situations, the situation pass is the
identity. -/
theorem situacaoGo_keep : ∀ (l : List Colaborador) (afa : List String),
    (∀ c ∈ l, situacaoMatch (pyLower c.situacao) = false) →
    situacaoGo l afa = (l, afa)
  | [], afa, _ => rfl
  | c :: rest, afa, h => by
    have hc := h c (List.mem_cons_self c rest)
    have hrest := fun x hx => h x (List.mem_cons_of_mem c hx)
    simp [situacaoGo, hc, situacaoGo_keep rest afa hrest]

/-- Every record the situation pass keeps was in the input and does not
match the removal situations. -/
theorem situacaoGo_mem : ∀ (l : List Colaborador) (afa : List String) (x : Colaborador),
    x ∈ (situacaoGo l afa).1 →
    x ∈ l ∧ situacaoMatch (pyLower x.situacao) = false
  | [], _, x, hx => absurd hx (by simp [situacaoGo])
  | c :: rest, afa, x, hx => by
    by_cases hs : situacaoMatch (pyLower c.situacao) = true
    · rw [show situacaoGo (c :: rest) afa =
        situacaoGo rest (adicionarExclusao afa c.matricula) by simp [situacaoGo, hs]] at hx
      obtain ⟨h1, h2⟩ := situacaoGo_mem rest _ x hx
      exact ⟨List.mem_cons_of_mem c h1, h2⟩
    · rw [show situacaoGo (c :: rest) afa =
        (c :: (situacaoGo rest afa).1, (situacaoGo rest afa).2) by simp [situacaoGo, hs]] at hx
      rcases List.mem_cons.mp hx with h1 | h2
      · subst h1
        exact ⟨List.mem_cons_self x rest, by simpa using hs⟩
      · obtain ⟨h3, h4⟩ := situacaoGo_mem rest afa x h2
        exact ⟨List.mem_cons_of_mem c h3, h4⟩

/-- Unfolding of one Cleaner run into its five passes. -/
theorem limpezaRun_eq (d : DadosEntrada) :
    limpezaRun d =
      { d with
        colaboradores_ativos :=
          (((situacaoGo (cargoGo d.colaboradores_ativos d.colaboradores_estagiarios
              d.colaboradores_aprendiz).1 d.colaboradores_afastados).1.filter
            (fun c => !((d.colaboradores_exterior ++
              (cargoGo d.colaboradores_ativos d.colaboradores_estagiarios
                d.colaboradores_aprendiz).2.1 ++
              (cargoGo d.colaboradores_ativos d.colaboradores_estagiarios
                d.colaboradores_aprendiz).2.2 ++
              (situacaoGo (cargoGo d.colaboradores_ativos d.colaboradores_estagiarios
                d.colaboradores_aprendiz).1 d.colaboradores_afastados).2).contains
              c.matricula))).map
            (processarFeriasRecord d.colaboradores_ferias)).map
            (processarDesligamentoRecord DIA_LIMITE_DESLIGAMENTO d.colaboradores_desligados),
        colaboradores_estagiarios :=
          (cargoGo d.colaboradores_ativos d.colaboradores_estagiarios
            d.colaboradores_aprendiz).2.1,
        colaboradores_aprendiz :=
          (cargoGo d.colaboradores_ativos d.colaboradores_estagiarios
            d.colaboradores_aprendiz).2.2,
        colaboradores_afastados :=
          (situacaoGo (cargoGo d.colaboradores_ativos d.colaboradores_estagiarios
            d.colaboradores_aprendiz).1 d.colaboradores_afastados).2 } := rfl

/-- Every record surviving a Cleaner run is the run's per-record
transformation of some input record, has a role and situation the removal
passes keep, and a matricula outside the final exclusion union. -/
theorem limpeza_membro (d : DadosEntrada) (x : Colaborador)
    (hx : x ∈ (limpezaRun d).colaboradores_ativos) :
    (∃ c0, x = cicloLimpeza d.colaboradores_ferias d.colaboradores_desligados c0) ∧
    (diretorMatch (pyLower x.cargo) = true ∨ cargoExcluidoMatch (pyLower x.cargo) = false) ∧
    situacaoMatch (pyLower x.situacao) = false ∧
    (matriculasExcluidas (limpezaRun d)).contains x.matricula = false := by
  rw [limpezaRun_eq] at hx
  simp only [] at hx
  obtain ⟨y, hy, hxy⟩ := List.mem_map.mp hx
  obtain ⟨z, hz, hyz⟩ := List.mem_map.mp hy
  have hzf := List.mem_filter.mp hz
  obtain ⟨hz1, hz2⟩ := situacaoGo_mem _ _ _ hzf.1
  obtain ⟨c0, hc0, hzc0, hcond⟩ := cargoGo_mem _ _ _ _ hz1
  have hxz : x = processarDesligamentoRecord DIA_LIMITE_DESLIGAMENTO
      d.colaboradores_desligados (processarFeriasRecord d.colaboradores_ferias z) := by
    rw [← hyz] at hxy
    exact hxy.symm
  have hcargo : x.cargo = z.cargo := by
    rw [hxz]
    simp
  have hsit : x.situacao = z.situacao := by
    rw [hxz]
    simp
  have hmat : x.matricula = z.matricula := by
    rw [hxz]
    simp
  refine ⟨⟨c0, ?_⟩, ?_, ?_, ?_⟩
  · rw [hxz, hzc0]
    rfl
  · rw [hcargo, hzc0]
    simpa using hcond
  · rw [hsit]
    exact hz2
  · rw [hmat]
    have := hzf.2
    simpa [matriculasExcluidas, limpezaRun_eq] using this

/-- Claim C6: after the Cleaner stage completes, no matricula of any of the
four exclusion lists (expatriate, intern, apprentice, leave of absence)
remains in the active collection. -/
theorem C6_exclusao_exaustiva (d : DadosEntrada) (m : String) (x : Colaborador)
    (hm : m ∈ matriculasExcluidas (limpezaRun d))
    (hx : x ∈ (limpezaRun d).colaboradores_ativos) :
    x.matricula ≠ m := by
  have h := (limpeza_membro d x hx).2.2.2
  intro he
  rw [he] at h
  simp at h
  exact h hm

def dadosC6 : DadosEntrada :=
  { dadosBase with
    colaboradores_ativos := [{ colabBase with matricula := "9" },
                             { colabBase with matricula := "1" }],
    colaboradores_exterior := ["9"] }

theorem C6_exclusao_exaustiva_witness :
    ({ colabBase with matricula := "1" } : Colaborador).matricula ≠ "9" :=
  C6_exclusao_exaustiva dadosC6 "9" { colabBase with matricula := "1" }
    (by decide) (by decide)

/-- Claim C7: running the Cleaner a second time on an already-cleaned
dataset removes no record and changes no field of any remaining record or
of the exclusion lists (the whole run is idempotent). -/
theorem C7_limpeza_idempotente (d : DadosEntrada) :
    limpezaRun (limpezaRun d) = limpezaRun d := by
  have hfacts := limpeza_membro d
  have h1 : cargoGo (limpezaRun d).colaboradores_ativos
      (limpezaRun d).colaboradores_estagiarios (limpezaRun d).colaboradores_aprendiz =
      ((limpezaRun d).colaboradores_ativos.map cargoKeepUpdate,
       (limpezaRun d).colaboradores_estagiarios, (limpezaRun d).colaboradores_aprendiz) :=
    cargoGo_keep _ _ _ (fun c hc => (hfacts c hc).2.1)
  have h2 : situacaoGo ((limpezaRun d).colaboradores_ativos.map cargoKeepUpdate)
      (limpezaRun d).colaboradores_afastados =
      ((limpezaRun d).colaboradores_ativos.map cargoKeepUpdate,
       (limpezaRun d).colaboradores_afastados) := by
    apply situacaoGo_keep
    intro c hc
    obtain ⟨y, hy, hyc⟩ := List.mem_map.mp hc
    rw [← hyc]
    simpa using (hfacts y hy).2.2.1
  have h3 : ((limpezaRun d).colaboradores_ativos.map cargoKeepUpdate).filter
      (fun c => !((limpezaRun d).colaboradores_exterior ++
        (limpezaRun d).colaboradores_estagiarios ++
        (limpezaRun d).colaboradores_aprendiz ++
        (limpezaRun d).colaboradores_afastados).contains c.matricula) =
      (limpezaRun d).colaboradores_ativos.map cargoKeepUpdate := by
    apply List.filter_eq_self.mpr
    intro c hc
    obtain ⟨y, hy, hyc⟩ := List.mem_map.mp hc
    rw [← hyc]
    have := (hfacts y hy).2.2.2
    unfold matriculasExcluidas at this
    simpa using this
  have h4 : (((limpezaRun d).colaboradores_ativos.map cargoKeepUpdate).map
      (processarFeriasRecord (limpezaRun d).colaboradores_ferias)).map
      (processarDesligamentoRecord DIA_LIMITE_DESLIGAMENTO
        (limpezaRun d).colaboradores_desligados) =
      (limpezaRun d).colaboradores_ativos := by
    rw [List.map_map, List.map_map]
    have hfer : (limpezaRun d).colaboradores_ferias = d.colaboradores_ferias := rfl
    have hdes : (limpezaRun d).colaboradores_desligados = d.colaboradores_desligados := rfl
    rw [hfer, hdes]
    have hid : ∀ x ∈ (limpezaRun d).colaboradores_ativos,
        processarDesligamentoRecord DIA_LIMITE_DESLIGAMENTO d.colaboradores_desligados
          (processarFeriasRecord d.colaboradores_ferias (cargoKeepUpdate x)) = id x := by
      intro x hx
      obtain ⟨c0, hc0⟩ := (hfacts x hx).1
      have hidem := cicloLimpeza_idem d.colaboradores_ferias d.colaboradores_desligados c0
      rw [hc0]
      simpa [cicloLimpeza] using hidem
    have hmapeq : ((limpezaRun d).colaboradores_ativos.map
        (fun x => processarDesligamentoRecord DIA_LIMITE_DESLIGAMENTO d.colaboradores_desligados
          (processarFeriasRecord d.colaboradores_ferias (cargoKeepUpdate x)))) =
        (limpezaRun d).colaboradores_ativos := by
      conv_rhs => rw [← List.map_id (limpezaRun d).colaboradores_ativos]
      exact List.map_congr_left hid
    exact hmapeq
  rw [limpezaRun_eq (limpezaRun d)]
  rw [h1]
  simp only []
  rw [h2]
  simp only []
  rw [h3, h4]

/-! ## C8: eligible-record sum versus the dataset aggregate total -/

/-- Sum of valor_total_beneficio over the active records marked eligible,
accumulated with Python addition (the quantity the round-trip claim
compares with total_beneficios). -/
def somaBeneficiosElegiveis (l : List Colaborador) : Rat :=
  ((l.filter (fun c => c.elegivel)).map
    (fun c => (valNum c.valor_total_beneficio).getD 0)).foldl radd 0

/-- Abstract (library-sum) form of the same quantity over a whole list. -/
def valListSum (l : List Colaborador) : Rat :=
  (l.map (fun c => (valNum c.valor_total_beneficio).getD 0)).sum

theorem valListSum_cons (c : Colaborador) (l : List Colaborador) :
    valListSum (c :: l) = (valNum c.valor_total_beneficio).getD 0 + valListSum l := rfl

theorem foldl_radd_eq_sum : ∀ (l : List Rat) (a : Rat), l.foldl radd a = a + l.sum
  | [], a => by simp
  | q :: rest, a => by
    simp only [List.foldl_cons, List.sum_cons]
    rw [foldl_radd_eq_sum rest (radd a q), radd_eq]
    ring

theorem somaBeneficiosElegiveis_eq (l : List Colaborador) :
    somaBeneficiosElegiveis l = valListSum (List.filter (fun c => c.elegivel) l) := by
  unfold somaBeneficiosElegiveis valListSum
  rw [foldl_radd_eq_sum]
  simp

/-- The Coordinator's Python sum over valor_total_beneficio, when it
succeeds, computes the abstract sum over all active records. -/
theorem somaCampo_vt_ok : ∀ (l : List Colaborador) (acc s : Rat),
    somaCampo (fun c => c.valor_total_beneficio) l acc = .ok s →
    s = acc + valListSum l
  | [], acc, s, h => by
    simp only [somaCampo] at h
    cases h
    simp [valListSum]
  | c :: rest, acc, s, h => by
    cases hv : valNum c.valor_total_beneficio with
    | none => simp [somaCampo, pyAddNum, hv] at h
    | some q =>
      simp only [somaCampo, pyAddNum, hv] at h
      have ih := somaCampo_vt_ok rest (radd acc q) s h
      rw [ih, valListSum_cons, hv, radd_eq]
      simp only [Option.getD_some]
      ring

/-- When every ineligible record carries a numeric zero, restricting the
sum to the eligible records changes nothing. -/
theorem valListSum_filter : ∀ (l : List Colaborador),
    (∀ c ∈ l, c.elegivel = false → valNum c.valor_total_beneficio = some 0) →
    valListSum (List.filter (fun c => c.elegivel) l) = valListSum l
  | [], _ => rfl
  | c :: rest, hinv => by
    have hrest : ∀ x ∈ rest, x.elegivel = false → valNum x.valor_total_beneficio = some 0 :=
      fun x hx => hinv x (List.mem_cons_of_mem _ hx)
    have ih := valListSum_filter rest hrest
    by_cases he : c.elegivel
    · rw [List.filter_cons_of_pos (by simpa using he), valListSum_cons, valListSum_cons, ih]
    · have hz := hinv c (List.mem_cons_self _ _) (by simpa using he)
      rw [List.filter_cons_of_neg (by simpa using he), ih, valListSum_cons, hz]
      simp

theorem regraDia15_vt (lim : Nat) (c : Colaborador) (r : Except String Nat) :
    (regraDia15 lim c r).valor_total_beneficio = c.valor_total_beneficio := by
  cases r with
  | error e => rfl
  | ok dia =>
    simp only [regraDia15]
    split <;> rfl

theorem desligRule_vt (lim : Nat) (c : Colaborador) :
    (aplicarRegraDesligamentoRecord lim c).valor_total_beneficio = c.valor_total_beneficio := by
  unfold aplicarRegraDesligamentoRecord
  by_cases ha : c.ativo
  · simp [ha]
  · by_cases ht : pyTruthy c.data_desligamento
    · simp [ha, ht, regraDia15_vt]
    · simp [ha, ht]

theorem feriasRule_vt (c : Colaborador) :
    (aplicarRegraFeriasRecord c).valor_total_beneficio = c.valor_total_beneficio := by
  unfold aplicarRegraFeriasRecord
  split <;> rfl

/-- Through _calcular_beneficios a record that entered with a numeric-zero
benefit keeps the invariant: if it leaves ineligible its benefit is still
numerically zero, and its benefit is numeric in every case. -/
theorem calcBeneficiosRecord_vt_inv (cfgV : List (String × Rat)) (cfgD : List (String × Int))
    (pe pp : Rat) (c : Colaborador) (hz : valNum c.valor_total_beneficio = some 0) :
    ((calcBeneficiosRecord cfgV cfgD pe pp c).elegivel = false →
      valNum (calcBeneficiosRecord cfgV cfgD pe pp c).valor_total_beneficio = some 0) ∧
    ∃ q, valNum (calcBeneficiosRecord cfgV cfgD pe pp c).valor_total_beneficio = some q := by
  by_cases h1 : c.elegivel
  · by_cases h2 : c.sindicato = ""
    · have hskip : calcBeneficiosRecord cfgV cfgD pe pp c = c :=
        calcBeneficiosRecord_skip cfgV cfgD pe pp c (Or.inr (Or.inl h2))
      rw [hskip]
      exact ⟨fun _ => hz, ⟨0, hz⟩⟩
    · by_cases h3 : (lookupD cfgV c.sindicato).getD 0 = 0
      · have hskip : calcBeneficiosRecord cfgV cfgD pe pp c = c :=
          calcBeneficiosRecord_skip cfgV cfgD pe pp c (Or.inr (Or.inr (Or.inl h3)))
        rw [hskip]
        exact ⟨fun _ => hz, ⟨0, hz⟩⟩
      · by_cases h4 : (lookupD cfgD c.sindicato).getD 0 ≤ 0
        · have hskip : calcBeneficiosRecord cfgV cfgD pe pp c = c :=
            calcBeneficiosRecord_skip cfgV cfgD pe pp c (Or.inr (Or.inr (Or.inr h4)))
          rw [hskip]
          exact ⟨fun _ => hz, ⟨0, hz⟩⟩
        · have hd0 : ¬ (lookupD cfgD c.sindicato).getD 0 = 0 := fun h => h4 (le_of_eq h)
          have helig : (calcBeneficiosRecord cfgV cfgD pe pp c).elegivel = true := by
            simp only [calcBeneficiosRecord, h1, h2, h3, hd0, h4]
            simp [h1]
          have hvt : ∃ q, valNum (calcBeneficiosRecord cfgV cfgD pe pp c).valor_total_beneficio
              = some q := by
            simp only [calcBeneficiosRecord, h1, h2, h3, hd0, h4]
            simp [valNum]
          exact ⟨fun hf => absurd helig (by rw [hf]; exact Bool.false_ne_true), hvt⟩
  · have hskip : calcBeneficiosRecord cfgV cfgD pe pp c = c :=
      calcBeneficiosRecord_skip cfgV cfgD pe pp c (Or.inl (by simpa using h1))
    rw [hskip]
    exact ⟨fun _ => hz, ⟨0, hz⟩⟩

theorem calcular_totais_ativos (d d' : DadosEntrada) (h : calcular_totais d = .ok d') :
    d'.colaboradores_ativos = d.colaboradores_ativos := by
  unfold calcular_totais at h
  cases ht : totaisGo d.colaboradores_ativos 0 0 0 0 with
  | error e => rw [ht] at h; exact absurd h (by simp)
  | ok t =>
    obtain ⟨tb, tc, td, n⟩ := t
    rw [ht] at h
    injection h with h
    rw [← h]

/-- After the Calculator's three record passes, every active record carries
a numeric benefit, zero whenever the record is ineligible — provided each
record entered the stage with a numeric-zero benefit (the consolidator's
default). -/
theorem calc_beneficios_inv (d : DadosEntrada)
    (hz : ∀ c ∈ d.colaboradores_ativos, valNum c.valor_total_beneficio = some 0) :
    ∀ c ∈ (calcular_beneficios (aplicar_regras_ferias
        (aplicar_regras_desligamento d))).colaboradores_ativos,
      (c.elegivel = false → valNum c.valor_total_beneficio = some 0) ∧
      ∃ q, valNum c.valor_total_beneficio = some q := by
  intro c hmem
  have hshape : (calcular_beneficios (aplicar_regras_ferias
      (aplicar_regras_desligamento d))).colaboradores_ativos =
    ((d.colaboradores_ativos.map
        (aplicarRegraDesligamentoRecord DIA_LIMITE_DESLIGAMENTO)).map
      aplicarRegraFeriasRecord).map
      (calcBeneficiosRecord d.config_sindicatos d.dias_uteis_por_sindicato
        CUSTO_EMPRESA_PERCENTUAL CUSTO_PROFISSIONAL_PERCENTUAL) := rfl
  rw [hshape] at hmem
  simp only [List.mem_map] at hmem
  obtain ⟨c0, ⟨c1, ⟨c2, hc2, rfl⟩, rfl⟩, rfl⟩ := hmem
  have hz2 : valNum (aplicarRegraFeriasRecord
      (aplicarRegraDesligamentoRecord DIA_LIMITE_DESLIGAMENTO c2)).valor_total_beneficio
      = some 0 := by
    rw [feriasRule_vt, desligRule_vt]
    exact hz c2 hc2
  exact calcBeneficiosRecord_vt_inv _ _ _ _ _ hz2

def colabCeo : Colaborador :=
  { colabBase with
    matricula := "100", cargo := "CEO", sindicato := "São Paulo",
    dias_trabalhados := .vnone }

def dadosCeo : DadosEntrada :=
  { dadosBase with
    colaboradores_ativos := [colabCeo],
    config_sindicatos := [("São Paulo", 28)],
    dias_uteis_por_sindicato := [("São Paulo", 22)] }

/-- Claim C8 (counterexample): at the end of the FULL pipeline the eligible
sum need not match total_beneficios within 0.01.  A single active record
with cargo "CEO" gets its benefit computed (28 × 22 = 616) and the totals
fixed, after which the Validator's director rule demotes it to ineligible
without recomputing the totals: the final dataset has total_beneficios =
616 while the sum over the eligible records is 0, a divergence of 616. -/
theorem C8_soma_total_counterexample :
    (fluxoCompleto 5 dadosCeo).2.total_beneficios = 616 ∧
    somaBeneficiosElegiveis (fluxoCompleto 5 dadosCeo).2.colaboradores_ativos = 0 ∧
    ¬ rabs (rsub (somaBeneficiosElegiveis (fluxoCompleto 5 dadosCeo).2.colaboradores_ativos)
        (fluxoCompleto 5 dadosCeo).2.total_beneficios) ≤ mkRat 1 100 := by
  decide

/-- Claim C8 (amended): at the end of FASE 3 — the Calculator stage followed
by the Coordinator's recomputation of the three dataset totals — the sum of
valor_total_beneficio over the active records marked eligible equals
total_beneficios to within 0.01 (in fact exactly), provided every active
record entered the phase with a numeric-zero benefit, as the consolidator
initializes it.  The unqualified end-of-pipeline claim fails because the
Validator's director rule can demote records afterwards. -/
theorem C8_soma_total_fase_calculos (d d2 : DadosEntrada)
    (hz : ∀ c ∈ d.colaboradores_ativos, valNum c.valor_total_beneficio = some 0)
    (hok : faseCalculos d = .ok d2) :
    rabs (rsub (somaBeneficiosElegiveis d2.colaboradores_ativos) d2.total_beneficios)
      ≤ mkRat 1 100 := by
  unfold faseCalculos at hok
  cases hc : calculadorRun d with
  | error e => rw [hc] at hok; exact absurd hok (by simp)
  | ok d1 =>
    rw [hc] at hok
    have hd1a : d1.colaboradores_ativos = (calcular_beneficios (aplicar_regras_ferias
        (aplicar_regras_desligamento d))).colaboradores_ativos :=
      calcular_totais_ativos _ _ hc
    have hinv : ∀ c ∈ d1.colaboradores_ativos,
        (c.elegivel = false → valNum c.valor_total_beneficio = some 0) ∧
        ∃ q, valNum c.valor_total_beneficio = some q := by
      rw [hd1a]
      exact calc_beneficios_inv d hz
    replace hok : coordenadorTotais d1 = .ok d2 := hok
    unfold coordenadorTotais at hok
    cases hs1 : somaCampo (fun c => c.valor_total_beneficio) d1.colaboradores_ativos 0 with
    | error e => rw [hs1] at hok; exact absurd hok (by simp)
    | ok tb =>
      cases hs2 : somaCampo (fun c => c.custo_empresa) d1.colaboradores_ativos 0 with
      | error e => rw [hs1, hs2] at hok; exact absurd hok (by simp)
      | ok tc =>
        cases hs3 : somaCampo (fun c => c.desconto_profissional)
            d1.colaboradores_ativos 0 with
        | error e => rw [hs1, hs2, hs3] at hok; exact absurd hok (by simp)
        | ok td =>
          rw [hs1, hs2, hs3] at hok
          replace hok : Except.ok (ε := String)
              { d1 with total_beneficios := tb, total_custo_empresa := tc,
                        total_desconto_profissionais := td } = .ok d2 := hok
          injection hok with hok
          subst hok
          have htb : tb = valListSum d1.colaboradores_ativos := by
            have := somaCampo_vt_ok d1.colaboradores_ativos 0 tb hs1
            rw [this, zero_add]
          have hsum : somaBeneficiosElegiveis d1.colaboradores_ativos = tb := by
            rw [somaBeneficiosElegiveis_eq, htb]
            exact valListSum_filter d1.colaboradores_ativos
              (fun c hc => (hinv c hc).1)
          show rabs (rsub (somaBeneficiosElegiveis d1.colaboradores_ativos) tb) ≤ mkRat 1 100
          rw [hsum, rsub_eq, sub_self, rabs_eq, abs_zero]
          rw [Rat.mkRat_eq_div]
          norm_num

def d2Ceo : DadosEntrada := ((faseCalculos dadosCeo).toOption).getD dadosCeo

theorem C8_soma_total_fase_calculos_witness :
    rabs (rsub (somaBeneficiosElegiveis d2Ceo.colaboradores_ativos) d2Ceo.total_beneficios)
      ≤ mkRat 1 100 :=
  C8_soma_total_fase_calculos dadosCeo d2Ceo (by decide) (by rfl)
